import Mathlib

/-!
Booking and contact forms: validation and submission pipeline.

Shallow embedding of `src/javascript/book.js` and `src/javascript/contact.js`.

* A JavaScript string is the list of its UTF-16 code units (`JSString`), so that
  `.length`, `trim`, `replace` and the regular expressions count what the
  engine counts.
* The regular-expression literals of the sources are transcribed into a small
  syntax tree (`Regex`) and run by a derivative matcher (`Regex.test`).
* What the browser supplies (the clock, `new Date(str)`, `Number(str)`,
  `toLowerCase`, `JSON.parse`) is a `Host`; the network answer of one submit
  attempt is a `FetchResult`.
* A submit handler is the list of effects it performs, in order.
-/

set_option autoImplicit false

namespace WebForms

/-! ## Strings -/

/-- A JavaScript string: its UTF-16 code units. -/
abbrev JSString := List Nat

/-- UTF-16 encoding of one Unicode scalar value. -/
def utf16 (c : Char) : List Nat :=
  if c.toNat < 65536 then [c.toNat]
  else [55296 + (c.toNat - 65536) / 1024, 56320 + (c.toNat - 65536) % 1024]

/-- The JavaScript string written by a literal. -/
def js (s : String) : JSString :=
  s.toList.foldr (fun c acc => utf16 c ++ acc) []

/-- ECMAScript `WhiteSpace` and `LineTerminator` code units: what `trim` removes
and what `\s` matches. -/
def isWhite (c : Nat) : Bool :=
  c == 9 || c == 10 || c == 11 || c == 12 || c == 13 || c == 32 || c == 160 ||
  c == 5760 || (8192 ≤ c && c ≤ 8202) || c == 8232 || c == 8233 || c == 8239 ||
  c == 8287 || c == 12288 || c == 65279

/-- `String.prototype.trim`. -/
def trim (s : JSString) : JSString :=
  (s.dropWhile isWhite).rdropWhile isWhite

/-- The character class `[<>]`. -/
def isAngle (c : Nat) : Bool := c == 60 || c == 62

/-- `s.replace(/[<>]/g, "")`. -/
def stripAngles (s : JSString) : JSString :=
  s.filter (fun c => !isAngle c)

/-- `sanitize` of book.js line 11 and contact.js line 13:
`s.trim().replace(/[<>]/g, "")`. In book.js the argument is first passed
through `String(s || "")`, which is the identity on strings. -/
def sanitize (s : JSString) : JSString :=
  stripAngles (trim s)

/-- `within` of contact.js line 14. -/
def within (s : JSString) (min max : Nat) : Bool :=
  decide (s.length ≥ min) && decide (s.length ≤ max)

/-- A string has no leading and no trailing whitespace. -/
def Trimmed (s : JSString) : Prop :=
  s.head?.all (fun c => !isWhite c) = true ∧ s.getLast?.all (fun c => !isWhite c) = true

instance (s : JSString) : Decidable (Trimmed s) := by
  unfold Trimmed; infer_instance

/-! ## Regular expressions -/

/-- The fragment of regular-expression syntax the sources use. Every
quantifier of the sources applies to a single character class, so repetition
is `rep cls lo hi` for `[cls]{lo,hi}` (`hi = none` for an open upper bound). -/
inductive Regex where
  | fail : Regex
  | eps : Regex
  | cls (p : Nat → Bool) : Regex
  | rep (p : Nat → Bool) (lo : Nat) (hi : Option Nat) : Regex
  | seq (a b : Regex) : Regex
  | alt (a b : Regex) : Regex

namespace Regex

/-- A literal code unit. -/
def chr (c : Nat) : Regex := cls (fun x => x == c)

/-- The quantifier `?` on a group. -/
def opt (r : Regex) : Regex := alt r eps

/-- The language of a pattern anchored by `^` and `$`. -/
def Matches : Regex → List Nat → Prop
  | fail, _ => False
  | eps, w => w = []
  | cls p, w => ∃ c, w = [c] ∧ p c = true
  | rep p lo hi, w =>
      lo ≤ w.length ∧ (∀ n, hi = some n → w.length ≤ n) ∧ ∀ c ∈ w, p c = true
  | seq a b, w => ∃ u v, w = u ++ v ∧ Matches a u ∧ Matches b v
  | alt a b, w => Matches a w ∨ Matches b w

/-- Whether the pattern matches the empty string. -/
def nullable : Regex → Bool
  | fail => false
  | eps => true
  | cls _ => false
  | rep _ lo _ => lo == 0
  | seq a b => nullable a && nullable b
  | alt a b => nullable a || nullable b

/-- Whether an upper bound still admits one more repetition. -/
def roomLeft : Option Nat → Bool
  | none => true
  | some n => decide (0 < n)

/-- Brzozowski derivative of a pattern by one code unit. -/
def deriv (c : Nat) : Regex → Regex
  | fail => fail
  | eps => fail
  | cls p => if p c then eps else fail
  | rep p lo hi =>
      if p c && roomLeft hi then rep p (lo - 1) (hi.map (· - 1)) else fail
  | seq a b =>
      if nullable a then alt (seq (deriv c a) b) (deriv c b) else seq (deriv c a) b
  | alt a b => alt (deriv c a) (deriv c b)

/-- `RegExp.prototype.test` for a pattern anchored at both ends. -/
def test (r : Regex) : List Nat → Bool
  | [] => nullable r
  | c :: w => test (deriv c r) w

end Regex

/-- The class `\d`. -/
def isDigit (c : Nat) : Bool := decide (48 ≤ c) && decide (c ≤ 57)

/-- The class `[A-Za-z]`. -/
def isLetter (c : Nat) : Bool :=
  (decide (65 ≤ c) && decide (c ≤ 90)) || (decide (97 ≤ c) && decide (c ≤ 122))

/-- The class `[^\s@]`. -/
def isEmailChar (c : Nat) : Bool := !(isWhite c || c == 64)

/-- The pattern `/^[^\s@]+@[^\s@]+\.[^\s@]{2,}$/`. -/
def emailRegex : Regex :=
  .seq (.rep isEmailChar 1 none)
    (.seq (.chr 64)
      (.seq (.rep isEmailChar 1 none)
        (.seq (.chr 46) (.rep isEmailChar 2 none))))

/-- The pattern `/^(\+?966|0)?5\d{8}$/`. -/
def mobileRegex : Regex :=
  .seq (.opt (.alt (.seq (.rep (fun c => c == 43) 0 (some 1))
                      (.seq (.chr 57) (.seq (.chr 54) (.chr 54))))
                   (.chr 48)))
    (.seq (.chr 53) (.rep isDigit 8 (some 8)))

/-- The pattern `/^([01]\d|2[0-3]):[0-5]\d$/`. -/
def timeRegex : Regex :=
  .seq (.alt (.seq (.cls (fun c => c == 48 || c == 49)) (.cls isDigit))
             (.seq (.chr 50) (.cls (fun c => decide (48 ≤ c) && decide (c ≤ 51)))))
    (.seq (.chr 58)
      (.seq (.cls (fun c => decide (48 ≤ c) && decide (c ≤ 53))) (.cls isDigit)))

/-- The pattern `/^[A-Za-z]{2,100}$/`. -/
def alphaRegex : Regex := .rep isLetter 2 (some 100)

/-- `isEmail` (book.js line 8, contact.js line 11). -/
def isEmail (s : JSString) : Bool := emailRegex.test (trim s)

/-- `isMobileKSA` (book.js line 9, contact.js line 10). -/
def isMobileKSA (s : JSString) : Bool := mobileRegex.test (trim s)

/-- `isTime` (book.js line 10). -/
def isTime (v : JSString) : Bool := timeRegex.test (trim v)

/-- `isAlpha` (contact.js line 8). -/
def isAlpha (s : JSString) : Bool := alphaRegex.test (trim s)

/-- `isGender` (contact.js line 9). -/
def isGender (v : JSString) : Bool := v == js "female" || v == js "male"

/-- `isLocation` (contact.js line 12). -/
def isLocation (v : JSString) : Bool :=
  [js "jed", js "ruh", js "khobar"].contains v

/-! ## Values supplied by the engine -/

/-- What the code reads from a `Date` object: `getFullYear()`, `getMonth()`
(0 to 11) and `getDate()`, all in local time. -/
structure JSDate where
  year : Int
  month : Nat
  date : Nat
  deriving DecidableEq, Repr

/-- The comparison `a <= b` of two `Date` objects after `setHours(0,0,0,0)` on
both: the order of their local calendar days. -/
def JSDate.dayLE (a b : JSDate) : Bool :=
  decide (a.year < b.year) ||
  (decide (a.year = b.year) &&
    (decide (a.month < b.month) || (decide (a.month = b.month) && decide (a.date ≤ b.date))))

/-- A JavaScript number, as far as the code can tell numbers apart: `NaN`, an
integral value (`Number.isInteger` holds), or a value that is not integral
(a fraction or an infinity). -/
inductive JSNumber where
  | nan : JSNumber
  | integer (z : Int) : JSNumber
  | nonInteger : JSNumber
  deriving DecidableEq, Repr

/-- `Number.isInteger`. -/
def JSNumber.isInteger : JSNumber → Bool
  | .integer _ => true
  | _ => false

/-- Truthiness of a number: `NaN` and zero are falsy. -/
def JSNumber.truthy : JSNumber → Bool
  | .nan => false
  | .integer z => decide (z ≠ 0)
  | .nonInteger => true

/-- The values `JSON.parse` can return, and `undefined`. An object is the list
of its own properties. -/
inductive JSValue where
  | undefined : JSValue
  | null : JSValue
  | bool (b : Bool) : JSValue
  | number (n : JSNumber) : JSValue
  | string (s : JSString) : JSValue
  | array (items : List JSValue) : JSValue
  | object (props : List (JSString × JSValue)) : JSValue

/-- Truthiness (`ToBoolean`). -/
def JSValue.truthy : JSValue → Bool
  | .undefined => false
  | .null => false
  | .bool b => b
  | .number n => n.truthy
  | .string s => !s.isEmpty
  | .array _ => true
  | .object _ => true

/-- The operator `a || b`. -/
def JSValue.or (a b : JSValue) : JSValue := if a.truthy then a else b

/-- The test `v === false`. -/
def JSValue.isFalse : JSValue → Bool
  | .bool false => true
  | _ => false

/-- Own property of an object, `undefined` when absent. -/
def lookupProp (k : JSString) : List (JSString × JSValue) → JSValue
  | [] => .undefined
  | (k', v) :: rest => if k' = k then v else lookupProp k rest

/-- Property read `v.k` for a name that no built-in prototype defines (the
code reads `ok` and `msg`): `none` stands for the `TypeError` thrown on `null`
and `undefined`. -/
def JSValue.get (v : JSValue) (k : JSString) : Option JSValue :=
  match v with
  | .undefined => none
  | .null => none
  | .object props => some (lookupProp k props)
  | _ => some .undefined

/-- The browser as the code sees it. `parseDate s` is `new Date(s)` read through
the local getters (`none` for an invalid date), `toNumber` is `Number(s)`,
`parseJSON` is `JSON.parse` (`none` for a `SyntaxError`). `lower_angle` records
that no character has `<` or `>` as (part of) its lower-case mapping. -/
structure Host where
  today : JSDate
  parseDate : JSString → Option JSDate
  toNumber : JSString → JSNumber
  toLowerCase : JSString → JSString
  parseJSON : JSString → Option JSValue
  lower_angle : ∀ s : JSString, (∀ c ∈ s, isAngle c = false) →
    ∀ c ∈ toLowerCase s, isAngle c = false

/-- The outcome of `fetch` followed by reading the body: either one of the
two promises rejects, or there is a response with its `ok` flag and body. -/
inductive FetchResult where
  | rejected : FetchResult
  | response (ok : Bool) (raw : JSString) : FetchResult

/-! ## book.js -/

/-- `notPast` (book.js lines 14-21). -/
def notPast (h : Host) (dstr : JSString) : Bool :=
  match h.parseDate dstr with
  | none => false
  | some d => h.today.dayLE d

/-- The values `getVal` reads from the booking form. -/
structure BookingForm where
  movie : JSString
  cinema : JSString
  date : JSString
  time : JSString
  tickets : JSString
  seat : JSString
  popcorn : JSString
  drink : JSString
  offer : JSString
  name : JSString
  email : JSString
  phone : JSString

/-- The object built at book.js lines 46-59. -/
structure BookingPayload where
  movie : JSString
  cinema : JSString
  date : JSString
  time : JSString
  tickets : JSNumber
  seat : JSString
  popcorn : JSString
  drink : JSString
  offer : JSString
  name : JSString
  email : JSString
  phone : JSString
  deriving DecidableEq

/-- The ticket test of book.js line 66,
`!Number.isInteger(t) || t < 1 || t > 10`; the comparisons are only reached
for an integral `t`. -/
def ticketsBad : JSNumber → Bool
  | .integer z => decide (z < 1) || decide (z > 10)
  | _ => true

namespace Booking

/-- The payload object of `validate` (book.js lines 46-59). -/
def buildPayload (h : Host) (f : BookingForm) : BookingPayload :=
  { movie := sanitize f.movie
    cinema := sanitize f.cinema
    date := f.date
    time := sanitize f.time
    tickets := h.toNumber f.tickets
    seat := sanitize f.seat
    popcorn := sanitize f.popcorn
    drink := sanitize f.drink
    offer := sanitize f.offer
    name := sanitize f.name
    email := h.toLowerCase (sanitize f.email)
    phone := sanitize f.phone }

/-- `validate` of book.js (lines 43-78). The result is the returned array:
`[msg]` is `(some msg, none)` and `[null, payload]` is `(none, some payload)`. -/
def validate (h : Host) (f : BookingForm) : Option JSString × Option BookingPayload :=
  let payload := buildPayload h f
  if payload.movie.isEmpty then (some (js "Select a movie"), none)
  else if payload.cinema.isEmpty then (some (js "Select cinema"), none)
  else if payload.date.isEmpty || !notPast h payload.date then
    (some (js "Choose a valid date (today or future)"), none)
  else if payload.time.isEmpty || !isTime payload.time then
    (some (js "Select a valid time (HH:MM 24h)"), none)
  else if ticketsBad payload.tickets then (some (js "Tickets must be 1–10"), none)
  else if payload.seat.isEmpty then (some (js "Select seat type"), none)
  else if payload.popcorn.isEmpty then (some (js "Select popcorn size"), none)
  else if payload.drink.isEmpty then (some (js "Select drink"), none)
  else if payload.offer.isEmpty then (some (js "Select an offer"), none)
  else if payload.name.isEmpty || decide (payload.name.length < 2) then
    (some (js "Enter full name"), none)
  else if !isEmail payload.email then (some (js "Enter a valid email"), none)
  else if !isMobileKSA payload.phone then
    (some (js "Mobile must be 05xxxxxxxx or +9665xxxxxxxx"), none)
  else (none, some payload)

end Booking

/-- What a submit handler does, in order. `π` is the payload type of the
form. `errorShown v` is book.js `showError`: the result box is replaced by one
error paragraph showing `v`. -/
inductive Effect (π : Type) where
  | preventDefault : Effect π
  | fetch (url : JSString) (body : Option π) : Effect π
  | errorShown (content : JSValue) : Effect π
  | alert (msg : JSValue) : Effect π
  | boxCleared : Effect π
  | receiptInjected (payload : π) : Effect π
  | confirmationShown (payload : π) : Effect π
  | formReset : Effect π

/-- `showError` (book.js lines 38-41): the paragraph shows `msg || "Error"`. -/
def showError {π : Type} (msg : JSValue) : Effect π :=
  .errorShown (msg.or (.string (js "Error")))

/-- The test `if (err)` on the first component of `validate`s result. -/
def errTruthy : Option JSString → Bool
  | none => false
  | some s => !s.isEmpty

/-- The first component of `validate`s result as a value. -/
def errValue : Option JSString → JSValue
  | none => .null
  | some s => .string s

namespace Booking

/-- The `catch` branch of the submit handler (book.js lines 167-169). -/
def onCatch : List (Effect BookingPayload) :=
  [showError (.string (js "Server error. Try again."))]

/-- The error report of book.js lines 156-157,
`showError(out.msg || raw || "Booking failed")`; reading `out.msg` throws when
`out` is `null`. -/
def reportFailure (out : JSValue) (raw : JSString) : List (Effect BookingPayload) :=
  match out.get (js "msg") with
  | none => onCatch
  | some m => [showError ((m.or (.string raw)).or (.string (js "Booking failed")))]

/-- The success path of book.js lines 161-164; `injectReceipt` throws on a
missing payload when it reads `payload.tickets`. -/
def reportSuccess (payload : Option BookingPayload) : List (Effect BookingPayload) :=
  .boxCleared ::
    (match payload with
     | none => onCatch
     | some p => [.receiptInjected p, .formReset])

/-- The statements after the response body is read (book.js lines 151-164).
`JSON.parse` failing leaves `out = {}`. In `!res.ok || out.ok === false` the
property `out.ok` is read only when `res.ok` holds, and reading it throws when
`out` is `null`. -/
def afterResponse (h : Host) (payload : Option BookingPayload) (ok : Bool) (raw : JSString) :
    List (Effect BookingPayload) :=
  let out := (h.parseJSON raw).getD (.object [])
  if !ok then reportFailure out raw
  else
    match out.get (js "ok") with
    | none => onCatch
    | some v => if v.isFalse then reportFailure out raw else reportSuccess payload

/-- The submit handler of book.js (lines 133-170). -/
def submitHandler (h : Host) (f : BookingForm) (net : FetchResult) :
    List (Effect BookingPayload) :=
  .preventDefault ::
    (match validate h f with
     | (err, payload) =>
        if errTruthy err then [showError (errValue err)]
        else
          .fetch (js "/api/book") payload ::
            (match net with
             | .rejected => onCatch
             | .response ok raw => afterResponse h payload ok raw))

end Booking

/-! ## contact.js -/

/-- `ageFromDob` (contact.js lines 17-25); `none` is `null`. -/
def ageFromDob (h : Host) (dobStr : JSString) : Option Int :=
  match h.parseDate dobStr with
  | none => none
  | some d =>
      let t := h.today
      let age : Int := t.year - d.year
      let m : Int := (t.month : Int) - (d.month : Int)
      if m < 0 ∨ (m = 0 ∧ t.date < d.date) then some (age - 1) else some age

/-- The values `validate` reads from the contact form; `gender` is the value of
the checked radio button, or the empty string. -/
structure ContactForm where
  first_name : JSString
  last_name : JSString
  gender : JSString
  mobile : JSString
  dob : JSString
  email : JSString
  location : JSString
  message : JSString

/-- The object returned at contact.js lines 53-62. -/
structure ContactPayload where
  first_name : JSString
  last_name : JSString
  gender : JSString
  mobile : JSString
  dob : JSString
  email : JSString
  location : JSString
  message : JSString
  deriving DecidableEq

/-- The age test of contact.js line 46. -/
def ageBad : Option Int → Bool
  | none => true
  | some age => decide (age < 13) || decide (age > 100)

namespace Contact

/-- The object returned on success (contact.js lines 53-62). -/
def buildPayload (h : Host) (f : ContactForm) : ContactPayload :=
  { first_name := sanitize f.first_name
    last_name := sanitize f.last_name
    gender := f.gender
    mobile := sanitize f.mobile
    dob := f.dob
    email := h.toLowerCase (sanitize f.email)
    location := f.location
    message := sanitize f.message }

/-- `validate` of contact.js (lines 29-63), with the same reading of the
returned array as for the booking form. -/
def validate (h : Host) (f : ContactForm) : Option JSString × Option ContactPayload :=
  if !isAlpha f.first_name then (some (js "First name must be 2–100 letters."), none)
  else if !isAlpha f.last_name then (some (js "Last name must be 2–100 letters."), none)
  else if !isGender f.gender then (some (js "Pick a gender."), none)
  else if !isMobileKSA f.mobile then
    (some (js "Mobile must be KSA format (05xxxxxxxx or +9665xxxxxxxx)."), none)
  else if ageBad (ageFromDob h f.dob) then
    (some (js "Enter a valid birth date (age 13–100)."), none)
  else if !isEmail f.email || !within f.email 3 150 then
    (some (js "Enter a valid email (max 150 chars)."), none)
  else if !isLocation f.location then (some (js "Pick a city."), none)
  else if !within (trim f.message) 5 2000 then
    (some (js "Message must be 5–2000 characters."), none)
  else (none, some (buildPayload h f))

/-- The `catch` branch of the submit handler (contact.js lines 98-100). -/
def onCatch : List (Effect ContactPayload) :=
  [.alert (.string (js "Server error. Please try again."))]

/-- The error report of contact.js line 82,
`alert(data.msg || "Submission failed")`; reading `data.msg` throws when `data`
is `null`. -/
def reportFailure (data : JSValue) : List (Effect ContactPayload) :=
  match data.get (js "msg") with
  | none => onCatch
  | some m => [.alert (m.or (.string (js "Submission failed")))]

/-- The success path of contact.js lines 84-96. `hasBox` tells whether the
page has the element `contactResult`; filling it throws on a missing payload. -/
def reportSuccess (hasBox : Bool) (payload : Option ContactPayload) :
    List (Effect ContactPayload) :=
  if hasBox then
    match payload with
    | none => onCatch
    | some p => [.confirmationShown p, .formReset]
  else [.formReset]

/-- The statements after `fetch` resolves (contact.js lines 79-96). `res.json()`
rejects on a body that is not JSON. In `!res.ok || !data.ok` the property
`data.ok` is read only when `res.ok` holds, and reading it throws when `data`
is `null`. -/
def afterResponse (h : Host) (hasBox : Bool) (payload : Option ContactPayload)
    (ok : Bool) (raw : JSString) : List (Effect ContactPayload) :=
  match h.parseJSON raw with
  | none => onCatch
  | some data =>
      if !ok then reportFailure data
      else
        match data.get (js "ok") with
        | none => onCatch
        | some v => if !v.truthy then reportFailure data else reportSuccess hasBox payload

/-- The submit handler of contact.js (lines 66-101). -/
def submitHandler (h : Host) (hasBox : Bool) (f : ContactForm) (net : FetchResult) :
    List (Effect ContactPayload) :=
  .preventDefault ::
    (match validate h f with
     | (err, payload) =>
        if errTruthy err then [.alert (errValue err)]
        else
          .fetch (js "/api/contact") payload ::
            (match net with
             | .rejected => onCatch
             | .response ok raw => afterResponse h hasBox payload ok raw))

end Contact

/-- The network requests among the effects of a handler run. -/
def fetches {π : Type} : List (Effect π) → List (JSString × Option π)
  | [] => []
  | .fetch url body :: rest => (url, body) :: fetches rest
  | _ :: rest => fetches rest

/-! ## Ordered rules, as the specification lists them -/

namespace Booking

/-- Rule `k` of the booking form (counted from 0, in the order movie, cinema,
date, time, tickets, seat, popcorn, drink, offer, name, email, phone) is
violated by the form state. Each rule reads one field. -/
def violates (h : Host) (f : BookingForm) : Nat → Bool
  | 0 => (sanitize f.movie).isEmpty
  | 1 => (sanitize f.cinema).isEmpty
  | 2 => f.date.isEmpty || !notPast h f.date
  | 3 => (sanitize f.time).isEmpty || !isTime (sanitize f.time)
  | 4 => ticketsBad (h.toNumber f.tickets)
  | 5 => (sanitize f.seat).isEmpty
  | 6 => (sanitize f.popcorn).isEmpty
  | 7 => (sanitize f.drink).isEmpty
  | 8 => (sanitize f.offer).isEmpty
  | 9 => (sanitize f.name).isEmpty || decide ((sanitize f.name).length < 2)
  | 10 => !isEmail (h.toLowerCase (sanitize f.email))
  | 11 => !isMobileKSA (sanitize f.phone)
  | _ => false

/-- The message of rule `k` of the booking form. -/
def message : Nat → JSString
  | 0 => js "Select a movie"
  | 1 => js "Select cinema"
  | 2 => js "Choose a valid date (today or future)"
  | 3 => js "Select a valid time (HH:MM 24h)"
  | 4 => js "Tickets must be 1–10"
  | 5 => js "Select seat type"
  | 6 => js "Select popcorn size"
  | 7 => js "Select drink"
  | 8 => js "Select an offer"
  | 9 => js "Enter full name"
  | 10 => js "Enter a valid email"
  | 11 => js "Mobile must be 05xxxxxxxx or +9665xxxxxxxx"
  | _ => []

end Booking

namespace Contact

/-- Rule `k` of the contact form (counted from 0, in the order first name, last
name, gender, mobile, date of birth, email, location, message) is violated by
the form state. Each rule reads one field. -/
def violates (h : Host) (f : ContactForm) : Nat → Bool
  | 0 => !isAlpha f.first_name
  | 1 => !isAlpha f.last_name
  | 2 => !isGender f.gender
  | 3 => !isMobileKSA f.mobile
  | 4 => ageBad (ageFromDob h f.dob)
  | 5 => !isEmail f.email || !within f.email 3 150
  | 6 => !isLocation f.location
  | 7 => !within (trim f.message) 5 2000
  | _ => false

/-- The message of rule `k` of the contact form. -/
def message : Nat → JSString
  | 0 => js "First name must be 2–100 letters."
  | 1 => js "Last name must be 2–100 letters."
  | 2 => js "Pick a gender."
  | 3 => js "Mobile must be KSA format (05xxxxxxxx or +9665xxxxxxxx)."
  | 4 => js "Enter a valid birth date (age 13–100)."
  | 5 => js "Enter a valid email (max 150 chars)."
  | 6 => js "Pick a city."
  | 7 => js "Message must be 5–2000 characters."
  | _ => []

end Contact

/-! ## Calendar notions used by the specification -/

/-- Gregorian leap year. -/
def isLeap (y : Int) : Bool :=
  (decide (y % 4 = 0) && !decide (y % 100 = 0)) || decide (y % 400 = 0)

/-- Number of days of month `m` (0 to 11) of year `y`. -/
def daysInMonth (y : Int) (m : Nat) : Nat :=
  if m = 1 then (if isLeap y then 29 else 28)
  else if m = 3 ∨ m = 5 ∨ m = 8 ∨ m = 10 then 30
  else 31

/-- A day of the Gregorian calendar. -/
def JSDate.Valid (d : JSDate) : Prop :=
  d.month < 12 ∧ 1 ≤ d.date ∧ d.date ≤ daysInMonth d.year d.month

instance (d : JSDate) : Decidable d.Valid := by
  unfold JSDate.Valid; infer_instance

/-- The calendar day after `d`. -/
def nextDay (d : JSDate) : JSDate :=
  if d.date < daysInMonth d.year d.month then { d with date := d.date + 1 }
  else if d.month < 11 then { year := d.year, month := d.month + 1, date := 1 }
  else { year := d.year + 1, month := 0, date := 1 }

/-- Same month and day, `n` years earlier. -/
def yearsBefore (n : Nat) (t : JSDate) : JSDate :=
  { t with year := t.year - n }

/-- Calendar order on (month, day) pairs: `(m1, d1)` precedes `(m2, d2)`. -/
def monthDayPrecedes (m1 d1 m2 d2 : Nat) : Prop :=
  m1 < m2 ∨ (m1 = m2 ∧ d1 < d2)

instance (m1 d1 m2 d2 : Nat) : Decidable (monthDayPrecedes m1 d1 m2 d2) := by
  unfold monthDayPrecedes; infer_instance

/-! ## The mobile shape in words -/

/-- Whether `t` is `pre` followed by the digit 5 and exactly eight decimal
digits. -/
def fiveAndEightDigitsAfter (pre t : JSString) : Bool :=
  pre.isPrefixOf t &&
    (match t.drop pre.length with
     | [] => false
     | c :: ds => c == 53 && ds.length == 8 && ds.all isDigit)

/-- The Saudi mobile shape as the specification words it: an optional prefix
that is either `+966` or `0`, then 5 and eight digits. -/
def claimedMobileShape (t : JSString) : Bool :=
  [[], js "+966", js "0"].any (fun pre => fiveAndEightDigitsAfter pre t)

/-- The shape the pattern accepts: the prefix may also be `966` without the
plus sign. -/
def acceptedMobileShape (t : JSString) : Bool :=
  [[], js "+966", js "966", js "0"].any (fun pre => fiveAndEightDigitsAfter pre t)

/-! ## A reference host -/

/-- ASCII lower-casing of one code unit. -/
def asciiLower (c : Nat) : Nat := if 65 ≤ c ∧ c ≤ 90 then c + 32 else c

/-- Value of a string of decimal digits. -/
def digitsValue (ds : List Nat) : Nat :=
  ds.foldl (fun acc c => 10 * acc + (c - 48)) 0

/-- `Number(s)` for a string that, once trimmed, is empty or made of decimal
digits; other strings are not covered and give `NaN`. -/
def refToNumber (s : JSString) : JSNumber :=
  if (trim s).all isDigit then .integer (digitsValue (trim s)) else .nan

/-- `new Date(s)` for a date written `YYYY-MM-DD`, in a time zone at or east
of Greenwich, where the local day is the written day; other strings are not
covered and give an invalid date. -/
def refParseDate (s : JSString) : Option JSDate :=
  match s with
  | [y1, y2, y3, y4, 45, m1, m2, 45, d1, d2] =>
      if [y1, y2, y3, y4, m1, m2, d1, d2].all isDigit then
        let y : Int := digitsValue [y1, y2, y3, y4]
        let m := digitsValue [m1, m2]
        let d := digitsValue [d1, d2]
        if 1 ≤ m ∧ m ≤ 12 ∧ 1 ≤ d ∧ d ≤ daysInMonth y (m - 1) then
          some { year := y, month := m - 1, date := d }
        else none
      else none
  | _ => none

/-- `JSON.parse` on the bodies used below; any other text is taken not to be
JSON. -/
def refParseJSON (s : JSString) : Option JSValue :=
  if s = js "null" then some .null
  else if s = js "true" then some (.bool true)
  else if s = js "false" then some (.bool false)
  else if s = js "\x7b\x7d" then some (.object [])
  else if s = js "\x7b\"ok\":true\x7d" then some (.object [(js "ok", .bool true)])
  else if s = js "\x7b\"ok\":false,\"msg\":\"Seat taken\"\x7d" then
    some (.object [(js "ok", .bool false), (js "msg", .string (js "Seat taken"))])
  else none

/-- A browser on 6 November 2026, exact on ASCII text, on `YYYY-MM-DD` dates,
on decimal ticket counts and on the response bodies of `refParseJSON`. -/
def refHost : Host :=
  { today := { year := 2026, month := 10, date := 6 }
    parseDate := refParseDate
    toNumber := refToNumber
    toLowerCase := fun s => s.map asciiLower
    parseJSON := refParseJSON
    lower_angle := by
      intro s hs c hc
      obtain ⟨x, hx, rfl⟩ := List.mem_map.mp hc
      have hx2 := hs x hx
      unfold asciiLower
      split_ifs with hr
      · simp [isAngle]; omega
      · exact hx2 }

/-! ## Text fields of the payloads -/

/-- The text fields of a booking payload: movie, cinema, time, seat, popcorn,
drink, offer, name, email, phone. -/
def BookingPayload.textFields (p : BookingPayload) : List JSString :=
  [p.movie, p.cinema, p.time, p.seat, p.popcorn, p.drink, p.offer, p.name, p.email, p.phone]

/-- The text fields of a contact payload: first name, last name, mobile, email,
message. -/
def ContactPayload.textFields (p : ContactPayload) : List JSString :=
  [p.first_name, p.last_name, p.mobile, p.email, p.message]

/-! ## Sample form states -/

/-- A booking form state that passes every rule on `refHost`. -/
def sampleBooking : BookingForm :=
  { movie := js "Dune"
    cinema := js "Riyadh Park"
    date := js "2026-12-01"
    time := js "18:30"
    tickets := js "2"
    seat := js "vip"
    popcorn := js "large"
    drink := js "cola"
    offer := js "none"
    name := js "Sara Ali"
    email := js "Sara@Example.com"
    phone := js "0512345678" }

/-- A contact form state that passes every rule on `refHost`. -/
def sampleContact : ContactForm :=
  { first_name := js "Sara"
    last_name := js "Ali"
    gender := js "female"
    mobile := js "+966512345678"
    dob := js "2000-01-15"
    email := js "Sara@Example.com"
    location := js "ruh"
    message := js "Hello there" }

/-! ## What a handler run leaves behind -/

/-- Whether a run executes `form.reset()`. -/
def hasReset {π : Type} : List (Effect π) → Bool
  | [] => false
  | .formReset :: _ => true
  | _ :: rest => hasReset rest

/-- The error messages a run surfaces, in the result box or by `alert`. -/
def surfaced {π : Type} : List (Effect π) → List JSValue
  | [] => []
  | .errorShown v :: rest => v :: surfaced rest
  | .alert v :: rest => v :: surfaced rest
  | _ :: rest => surfaced rest

/-- The payloads a run renders as a receipt or as a confirmation. -/
def rendered {π : Type} : List (Effect π) → List π
  | [] => []
  | .receiptInjected p :: rest => p :: rendered rest
  | .confirmationShown p :: rest => p :: rendered rest
  | _ :: rest => rendered rest

/-- The booking attempt ends on the success path (book.js lines 160-164):
validation passed, the response has a success status, `out.ok` can be read and
is not `false`. -/
def Booking.onSuccessPath (h : Host) (f : BookingForm) (net : FetchResult) : Prop :=
  ∃ p raw v, Booking.validate h f = (none, some p) ∧ net = .response true raw ∧
    ((h.parseJSON raw).getD (.object [])).get (js "ok") = some v ∧ v.isFalse = false

/-- The contact attempt ends on the success path (contact.js lines 84-96):
validation passed, the response has a success status, its body is JSON and
`data.ok` can be read and is truthy. -/
def Contact.onSuccessPath (h : Host) (f : ContactForm) (net : FetchResult) : Prop :=
  ∃ p raw data v, Contact.validate h f = (none, some p) ∧ net = .response true raw ∧
    h.parseJSON raw = some data ∧ data.get (js "ok") = some v ∧ v.truthy = true

/-! ## The result box of the booking page -/

/-- `ticketPrice` of book.js line 82. -/
def ticketPrice : Int := 45

/-- The product `Number(payload.tickets) * ticketPrice` of book.js line 83,
where the three classes of `JSNumber` determine it: `NaN` stays `NaN`, and an
integral count whose product is at most 2^53 in absolute value is multiplied
exactly. A larger product is rounded, and the product of a non-integral count
may or may not be integral: `none`. -/
def receiptTotal (payload : BookingPayload) : Option JSNumber :=
  match payload.tickets with
  | .nan => some .nan
  | .integer z =>
      if (z * ticketPrice).natAbs ≤ 2 ^ 53 then some (.integer (z * ticketPrice)) else none
  | .nonInteger => none

/-- An element below the result box, in document order. `showError` and
`injectReceipt` hand markup to the HTML parser of the engine, so a message
that holds markup becomes elements of its own.
* `paragraph v`: the red paragraph of `showError`, a child of the box, with the
  markup-free text `v` between its tags;
* `parsed depth isCard`: any other element the parser built from the markup of
  a message, `depth` levels below the children of the box, matching
  `.receipt-card` or not;
* `receipt payload total`: the card of `injectReceipt`, a child of the box. Its
  values are sanitized text or numbers, and the date, which the date rule has
  accepted; they are taken to add no element. -/
inductive BoxNode where
  | paragraph (content : JSValue) : BoxNode
  | parsed (depth : Nat) (isCard : Bool) : BoxNode
  | receipt (payload : BookingPayload) (total : Option JSNumber) : BoxNode

/-- The selector `.receipt-card`. -/
def BoxNode.isReceipt : BoxNode → Bool
  | .receipt _ _ => true
  | .parsed _ isCard => isCard
  | .paragraph _ => false

/-- Depth below the children of the box. -/
def BoxNode.depth : BoxNode → Nat
  | .parsed d _ => d
  | _ => 0

/-- Skips the descendants of an element of depth `d`: the elements that follow
it in document order and lie deeper. -/
def dropSubtree (d : Nat) : List BoxNode → List BoxNode
  | [] => []
  | n :: rest => if d < n.depth then dropSubtree d rest else n :: rest

/-- The statement `targetEl.querySelector(".receipt-card")?.remove()`: the
first matching element in document order leaves with its descendants. -/
def removeFirstReceipt : List BoxNode → List BoxNode
  | [] => []
  | n :: rest =>
      if n.isReceipt then dropSubtree n.depth rest else n :: removeFirstReceipt rest

/-- `injectReceipt` (book.js lines 81-116) on the content of the box: the old
card is removed and the new one is inserted at the end. -/
def injectReceipt (targetEl : List BoxNode) (payload : BookingPayload) : List BoxNode :=
  removeFirstReceipt targetEl ++ [.receipt payload (receiptTotal payload)]

/-- The content of the result box after one effect. `errorChildren v` is what
the HTML parser of the engine builds when `showError` assigns the paragraph
markup around `v` to `box.innerHTML` (book.js line 40). -/
def applyEffect (errorChildren : JSValue → List BoxNode) (box : List BoxNode) :
    Effect BookingPayload → List BoxNode
  | .errorShown v => errorChildren v
  | .boxCleared => []
  | .receiptInjected p => injectReceipt box p
  | _ => box

/-- One submit attempt: the engine state with its HTML parser, the form state
and what the network does. -/
structure Attempt where
  host : Host
  errorChildren : JSValue → List BoxNode
  form : BookingForm
  net : FetchResult

/-- The result box after one submit attempt. -/
def afterAttempt (box : List BoxNode) (a : Attempt) : List BoxNode :=
  (Booking.submitHandler a.host a.form a.net).foldl (applyEffect a.errorChildren) box

/-- The result box after a sequence of submit attempts. -/
def afterAttempts (box : List BoxNode) (as : List Attempt) : List BoxNode :=
  as.foldl afterAttempt box

/-- Number of elements matching `.receipt-card` below the box. -/
def receiptCount (box : List BoxNode) : Nat :=
  (box.filter BoxNode.isReceipt).length

/-- Number of child elements of the box. -/
def childCount (box : List BoxNode) : Nat :=
  (box.filter (fun n => n.depth == 0)).length

/-! ## A reference HTML parser for error messages -/

/-- The start tag of a receipt card. -/
def cardStartTag : JSString := js "<div class=\"receipt-card\">"

/-- The end tag of a `div`. -/
def divEndTag : JSString := js "</div>"

/-- The HTML tree builder on `<p ...>` followed by `s` and `</p>`, for an `s`
made of text, receipt-card start tags and `div` end tags. `pText` is the text
of the paragraph while it is open; a `div` start tag closes it. A `div` end tag
with no open `div` is ignored. At the end, `</p>` closes the open paragraph, or,
when none is open, creates an empty `p` at the current depth. Text inside a
`div` adds no element. Other markup, and text directly below the box, give
`none`. -/
def scanMarkup : Nat → JSString → Option JSString → Nat → List BoxNode →
    Option (List BoxNode)
  | 0, _, _, _, _ => none
  | fuel + 1, s, pText, depth, acc =>
      match s with
      | [] =>
          match pText with
          | some t => some (acc ++ [.paragraph (.string t)])
          | none => some (acc ++ [.parsed depth false])
      | c :: rest =>
          if cardStartTag.isPrefixOf s then
            let closed := match pText with
              | some t => acc ++ [.paragraph (.string t)]
              | none => acc
            scanMarkup fuel (s.drop cardStartTag.length) none (depth + 1)
              (closed ++ [.parsed depth true])
          else if divEndTag.isPrefixOf s then
            scanMarkup fuel (s.drop divEndTag.length) pText (depth - 1) acc
          else if c = 60 then none
          else
            match pText with
            | some t => scanMarkup fuel rest (some (t ++ [c])) depth acc
            | none => if depth = 0 then none else scanMarkup fuel rest none depth acc

/-- What `showError` leaves in the box, for a message that is a string of text,
receipt-card start tags and `div` end tags, or a number or boolean. Other
values are not covered and give the single paragraph. -/
def refErrorChildren (v : JSValue) : List BoxNode :=
  match v with
  | .string s => (scanMarkup (s.length + 1) s (some []) 0 []).getD [.paragraph v]
  | _ => [.paragraph v]

/-- A response body made of two receipt cards. -/
def twoCardsBody : JSString :=
  js "<div class=\"receipt-card\">a</div><div class=\"receipt-card\">b</div>"

/-! ## A host west of Greenwich -/

/-- The calendar day before `d`. -/
def prevDay (d : JSDate) : JSDate :=
  if 1 < d.date then { d with date := d.date - 1 }
  else if 0 < d.month then
    { year := d.year, month := d.month - 1, date := daysInMonth d.year (d.month - 1) }
  else { year := d.year - 1, month := 11, date := 31 }

/-- `new Date(s)` for a date written `YYYY-MM-DD`, read through the local
getters in a time zone west of Greenwich: a date-only string denotes midnight
UTC, which is the evening of the previous local day. -/
def westParseDate (s : JSString) : Option JSDate :=
  (refParseDate s).map prevDay

/-- The reference browser at noon on 6 November 2026 in a time zone west of
Greenwich (such as America/Los_Angeles). -/
def westHost : Host :=
  { refHost with parseDate := westParseDate }

/-! ## Day numbers -/

/-- Days from 1 January 1970 to 1 January of year `y`. -/
def daysBeforeYear (y : Int) : Int :=
  365 * (y - 1970) + ((y - 1) / 4 - 492) - ((y - 1) / 100 - 19) + ((y - 1) / 400 - 4)

/-- Days of year `y` that precede month `m` (0 to 11). -/
def daysBeforeMonth (y : Int) (m : Nat) : Nat :=
  ((List.range m).map (daysInMonth y)).sum

/-- The calendar day as a count of days from 1 January 1970. -/
def dayNumber (d : JSDate) : Int :=
  daysBeforeYear d.year + (daysBeforeMonth d.year d.month : Int) + ((d.date : Int) - 1)

/-! ## The time shape in words -/

/-- A 24-hour time `HH:MM` as the specification words it: five code units, two
digits with `HH` from 00 to 23, a colon, two digits with `MM` from 00 to 59. -/
def claimedTimeShape (t : JSString) : Bool :=
  match t with
  | [h1, h2, c, m1, m2] =>
      isDigit h1 && isDigit h2 && c == 58 && isDigit m1 && isDigit m2 &&
        decide (digitsValue [h1, h2] ≤ 23) && decide (digitsValue [m1, m2] ≤ 59)
  | _ => false

/-! ## The matcher decides the language -/

namespace Regex

theorem nullable_iff (r : Regex) : nullable r = true ↔ Matches r [] := by
  induction r with
  | fail => simp [nullable, Matches]
  | eps => simp [nullable, Matches]
  | cls p => simp [nullable, Matches]
  | rep p lo hi => simp [nullable, Matches]
  | seq a b iha ihb =>
      simp only [nullable, Matches, Bool.and_eq_true, iha, ihb]
      constructor
      · rintro ⟨h1, h2⟩
        exact ⟨[], [], rfl, h1, h2⟩
      · rintro ⟨u, v, huv, h1, h2⟩
        obtain ⟨rfl, rfl⟩ := List.append_eq_nil.mp huv.symm
        exact ⟨h1, h2⟩
  | alt a b iha ihb => simp [nullable, Matches, iha, ihb]

theorem deriv_iff (c : Nat) (r : Regex) : ∀ w, Matches (deriv c r) w ↔ Matches r (c :: w) := by
  induction r with
  | fail => intro w; simp [deriv, Matches]
  | eps => intro w; simp [deriv, Matches]
  | cls p =>
      intro w
      by_cases hp : p c = true
      · simp only [deriv, Matches, hp, if_true]
        constructor
        · rintro rfl
          exact ⟨c, rfl, hp⟩
        · rintro ⟨x, hx, _⟩
          simp only [List.cons.injEq] at hx
          exact hx.2
      · simp only [deriv, Matches, hp]
        simp only [Bool.false_eq_true, if_false, Matches, false_iff]
        rintro ⟨x, hx, hpx⟩
        simp only [List.cons.injEq] at hx
        exact hp (hx.1 ▸ hpx)
  | rep p lo hi =>
      intro w
      by_cases hp : p c = true
      · cases hi with
        | none =>
            simp only [deriv, hp, roomLeft, Bool.and_self, if_true, Matches, Option.map_none',
              List.length_cons, List.mem_cons, forall_eq_or_imp]
            constructor
            · rintro ⟨h1, _, h3⟩
              exact ⟨by omega, by simp, trivial, h3⟩
            · rintro ⟨h1, _, _, h3⟩
              exact ⟨by omega, by simp, h3⟩
        | some n =>
            by_cases hn : 0 < n
            · simp only [deriv, hp, roomLeft, hn, decide_True, Bool.and_self, if_true, Matches,
                Option.map_some', Option.some.injEq, forall_eq', List.length_cons, List.mem_cons,
                forall_eq_or_imp]
              constructor
              · rintro ⟨h1, h2, h3⟩
                exact ⟨by omega, by omega, trivial, h3⟩
              · rintro ⟨h1, h2, _, h3⟩
                exact ⟨by omega, by omega, h3⟩
            · simp only [deriv, hp, roomLeft, hn, decide_False, Bool.and_false,
                Bool.false_eq_true, if_false, Matches, Option.some.injEq, forall_eq',
                List.length_cons, false_iff]
              rintro ⟨_, h2, _⟩
              omega
      · simp only [deriv, hp, Bool.false_and, Bool.false_eq_true, if_false, Matches,
          List.mem_cons, forall_eq_or_imp, false_iff]
        rintro ⟨_, _, h3, _⟩
        exact h3
  | seq a b iha ihb =>
      intro w
      have key : Matches (seq a b) (c :: w) ↔
          (∃ u v, w = u ++ v ∧ Matches a (c :: u) ∧ Matches b v) ∨
            (Matches a [] ∧ Matches b (c :: w)) := by
        simp only [Matches]
        constructor
        · rintro ⟨u, v, huv, h1, h2⟩
          cases u with
          | nil =>
              right
              simp only [List.nil_append] at huv
              exact ⟨h1, huv ▸ h2⟩
          | cons x u =>
              left
              simp only [List.cons_append, List.cons.injEq] at huv
              obtain ⟨rfl, rfl⟩ := huv
              exact ⟨u, v, rfl, h1, h2⟩
        · rintro (⟨u, v, rfl, h1, h2⟩ | ⟨h1, h2⟩)
          · exact ⟨c :: u, v, rfl, h1, h2⟩
          · exact ⟨[], c :: w, rfl, h1, h2⟩
      rw [key]
      by_cases hn : nullable a = true
      · simp only [deriv, hn, if_true, Matches, iha, ihb, ← nullable_iff, true_and]
      · have hn2 : ¬ Matches a [] := fun hm => hn ((nullable_iff a).mpr hm)
        simp only [deriv, hn, Bool.false_eq_true, if_false, Matches, iha, hn2, false_and,
          or_false]
  | alt a b iha ihb => intro w; simp [deriv, Matches, iha, ihb]

theorem test_iff (r : Regex) (w : List Nat) : test r w = true ↔ Matches r w := by
  induction w generalizing r with
  | nil => simp [test, nullable_iff]
  | cons c w ih => simp [test, ih, deriv_iff]

end Regex

/-! ## Rule order of the two validators -/

theorem booking_violates_beyond (h : Host) (f : BookingForm) (k : Nat) (hk : 12 ≤ k) :
    Booking.violates h f k = false := by
  obtain ⟨n, rfl⟩ := Nat.exists_eq_add_of_le hk
  rw [Nat.add_comm]
  rfl

theorem contact_violates_beyond (h : Host) (f : ContactForm) (k : Nat) (hk : 8 ≤ k) :
    Contact.violates h f k = false := by
  obtain ⟨n, rfl⟩ := Nat.exists_eq_add_of_le hk
  rw [Nat.add_comm]
  rfl

theorem booking_validate_eq_of_first (h : Host) (f : BookingForm) (k : Nat) (hk : k < 12)
    (hpass : ∀ j, j < k → Booking.violates h f j = false)
    (hfail : Booking.violates h f k = true) :
    Booking.validate h f = (some (Booking.message k), none) := by
  have h0 := hpass 0
  have h1 := hpass 1
  have h2 := hpass 2
  have h3 := hpass 3
  have h4 := hpass 4
  have h5 := hpass 5
  have h6 := hpass 6
  have h7 := hpass 7
  have h8 := hpass 8
  have h9 := hpass 9
  have h10 := hpass 10
  interval_cases k <;>
    simp only [Booking.violates, Nat.lt_irrefl, Nat.zero_lt_succ, Nat.succ_lt_succ_iff,
      Nat.not_lt_zero, forall_true_left, Nat.reduceLT, Nat.lt_add_one] at h0 h1 h2 h3 h4 h5 h6 h7 h8 h9 h10 hfail <;>
    simp [Booking.validate, Booking.buildPayload, Booking.message, *]

theorem booking_validate_of_all_pass (h : Host) (f : BookingForm)
    (hpass : ∀ k, k < 12 → Booking.violates h f k = false) :
    Booking.validate h f = (none, some (Booking.buildPayload h f)) := by
  have h0 := hpass 0
  have h1 := hpass 1
  have h2 := hpass 2
  have h3 := hpass 3
  have h4 := hpass 4
  have h5 := hpass 5
  have h6 := hpass 6
  have h7 := hpass 7
  have h8 := hpass 8
  have h9 := hpass 9
  have h10 := hpass 10
  have h11 := hpass 11
  simp only [Booking.violates, Nat.reduceLT, forall_true_left] at h0 h1 h2 h3 h4 h5 h6 h7 h8 h9 h10 h11
  simp [Booking.validate, Booking.buildPayload, *]

theorem contact_validate_eq_of_first (h : Host) (f : ContactForm) (k : Nat) (hk : k < 8)
    (hpass : ∀ j, j < k → Contact.violates h f j = false)
    (hfail : Contact.violates h f k = true) :
    Contact.validate h f = (some (Contact.message k), none) := by
  have h0 := hpass 0
  have h1 := hpass 1
  have h2 := hpass 2
  have h3 := hpass 3
  have h4 := hpass 4
  have h5 := hpass 5
  have h6 := hpass 6
  interval_cases k <;>
    simp only [Contact.violates, Nat.lt_irrefl, Nat.zero_lt_succ, Nat.succ_lt_succ_iff,
      Nat.not_lt_zero, forall_true_left, Nat.reduceLT, Nat.lt_add_one] at h0 h1 h2 h3 h4 h5 h6 hfail <;>
    simp [Contact.validate, Contact.message, *]

theorem contact_validate_of_all_pass (h : Host) (f : ContactForm)
    (hpass : ∀ k, k < 8 → Contact.violates h f k = false) :
    Contact.validate h f = (none, some (Contact.buildPayload h f)) := by
  have h0 := hpass 0
  have h1 := hpass 1
  have h2 := hpass 2
  have h3 := hpass 3
  have h4 := hpass 4
  have h5 := hpass 5
  have h6 := hpass 6
  have h7 := hpass 7
  simp only [Contact.violates, Nat.reduceLT, forall_true_left] at h0 h1 h2 h3 h4 h5 h6 h7
  simp [Contact.validate, *]

/-- Either some rule is the first one violated and `validate` returns its
message alone, or no rule is violated and `validate` returns the payload. -/
theorem booking_validate_cases (h : Host) (f : BookingForm) :
    (∃ k, k < 12 ∧ Booking.violates h f k = true ∧
        Booking.validate h f = (some (Booking.message k), none)) ∨
    ((∀ k, Booking.violates h f k = false) ∧
        Booking.validate h f = (none, some (Booking.buildPayload h f))) := by
  by_cases c0 : Booking.violates h f 0 = true
  · exact Or.inl ⟨0, by omega, c0, booking_validate_eq_of_first h f 0 (by omega)
      (by intro j hj; omega) c0⟩
  by_cases c1 : Booking.violates h f 1 = true
  · exact Or.inl ⟨1, by omega, c1, booking_validate_eq_of_first h f 1 (by omega)
      (by intro j hj; interval_cases j; simp_all) c1⟩
  by_cases c2 : Booking.violates h f 2 = true
  · exact Or.inl ⟨2, by omega, c2, booking_validate_eq_of_first h f 2 (by omega)
      (by intro j hj; interval_cases j <;> simp_all) c2⟩
  by_cases c3 : Booking.violates h f 3 = true
  · exact Or.inl ⟨3, by omega, c3, booking_validate_eq_of_first h f 3 (by omega)
      (by intro j hj; interval_cases j <;> simp_all) c3⟩
  by_cases c4 : Booking.violates h f 4 = true
  · exact Or.inl ⟨4, by omega, c4, booking_validate_eq_of_first h f 4 (by omega)
      (by intro j hj; interval_cases j <;> simp_all) c4⟩
  by_cases c5 : Booking.violates h f 5 = true
  · exact Or.inl ⟨5, by omega, c5, booking_validate_eq_of_first h f 5 (by omega)
      (by intro j hj; interval_cases j <;> simp_all) c5⟩
  by_cases c6 : Booking.violates h f 6 = true
  · exact Or.inl ⟨6, by omega, c6, booking_validate_eq_of_first h f 6 (by omega)
      (by intro j hj; interval_cases j <;> simp_all) c6⟩
  by_cases c7 : Booking.violates h f 7 = true
  · exact Or.inl ⟨7, by omega, c7, booking_validate_eq_of_first h f 7 (by omega)
      (by intro j hj; interval_cases j <;> simp_all) c7⟩
  by_cases c8 : Booking.violates h f 8 = true
  · exact Or.inl ⟨8, by omega, c8, booking_validate_eq_of_first h f 8 (by omega)
      (by intro j hj; interval_cases j <;> simp_all) c8⟩
  by_cases c9 : Booking.violates h f 9 = true
  · exact Or.inl ⟨9, by omega, c9, booking_validate_eq_of_first h f 9 (by omega)
      (by intro j hj; interval_cases j <;> simp_all) c9⟩
  by_cases c10 : Booking.violates h f 10 = true
  · exact Or.inl ⟨10, by omega, c10, booking_validate_eq_of_first h f 10 (by omega)
      (by intro j hj; interval_cases j <;> simp_all) c10⟩
  by_cases c11 : Booking.violates h f 11 = true
  · exact Or.inl ⟨11, by omega, c11, booking_validate_eq_of_first h f 11 (by omega)
      (by intro j hj; interval_cases j <;> simp_all) c11⟩
  have hall : ∀ k, k < 12 → Booking.violates h f k = false := by
    intro k hk
    interval_cases k <;> simp_all
  refine Or.inr ⟨fun k => ?_, booking_validate_of_all_pass h f hall⟩
  by_cases hk : k < 12
  · exact hall k hk
  · exact booking_violates_beyond h f k (by omega)

/-- The same case split for the contact form. -/
theorem contact_validate_cases (h : Host) (f : ContactForm) :
    (∃ k, k < 8 ∧ Contact.violates h f k = true ∧
        Contact.validate h f = (some (Contact.message k), none)) ∨
    ((∀ k, Contact.violates h f k = false) ∧
        Contact.validate h f = (none, some (Contact.buildPayload h f))) := by
  by_cases c0 : Contact.violates h f 0 = true
  · exact Or.inl ⟨0, by omega, c0, contact_validate_eq_of_first h f 0 (by omega)
      (by intro j hj; omega) c0⟩
  by_cases c1 : Contact.violates h f 1 = true
  · exact Or.inl ⟨1, by omega, c1, contact_validate_eq_of_first h f 1 (by omega)
      (by intro j hj; interval_cases j; simp_all) c1⟩
  by_cases c2 : Contact.violates h f 2 = true
  · exact Or.inl ⟨2, by omega, c2, contact_validate_eq_of_first h f 2 (by omega)
      (by intro j hj; interval_cases j <;> simp_all) c2⟩
  by_cases c3 : Contact.violates h f 3 = true
  · exact Or.inl ⟨3, by omega, c3, contact_validate_eq_of_first h f 3 (by omega)
      (by intro j hj; interval_cases j <;> simp_all) c3⟩
  by_cases c4 : Contact.violates h f 4 = true
  · exact Or.inl ⟨4, by omega, c4, contact_validate_eq_of_first h f 4 (by omega)
      (by intro j hj; interval_cases j <;> simp_all) c4⟩
  by_cases c5 : Contact.violates h f 5 = true
  · exact Or.inl ⟨5, by omega, c5, contact_validate_eq_of_first h f 5 (by omega)
      (by intro j hj; interval_cases j <;> simp_all) c5⟩
  by_cases c6 : Contact.violates h f 6 = true
  · exact Or.inl ⟨6, by omega, c6, contact_validate_eq_of_first h f 6 (by omega)
      (by intro j hj; interval_cases j <;> simp_all) c6⟩
  by_cases c7 : Contact.violates h f 7 = true
  · exact Or.inl ⟨7, by omega, c7, contact_validate_eq_of_first h f 7 (by omega)
      (by intro j hj; interval_cases j <;> simp_all) c7⟩
  have hall : ∀ k, k < 8 → Contact.violates h f k = false := by
    intro k hk
    interval_cases k <;> simp_all
  refine Or.inr ⟨fun k => ?_, contact_validate_of_all_pass h f hall⟩
  by_cases hk : k < 8
  · exact hall k hk
  · exact contact_violates_beyond h f k (by omega)

/-- C1: the booking validator checks the twelve rules in the order movie,
cinema, date, time, tickets, seat, popcorn, drink, offer, name, email, phone.
If rule `k` is the first one the form state violates, `validate` returns rule
`k`s message and no payload, whatever the later fields hold; it returns a
payload only when no rule is violated, and then it does return one. A state
that passes the first four rules and whose ticket count is 11 gets the
ticket-count message. -/
theorem booking_validate_fail_fast (h : Host) (f : BookingForm) :
    (∀ k, k < 12 → (∀ j, j < k → Booking.violates h f j = false) →
        Booking.violates h f k = true →
        Booking.validate h f = (some (Booking.message k), none)) ∧
    (∀ p, (Booking.validate h f).2 = some p → ∀ k, Booking.violates h f k = false) ∧
    ((∀ k, k < 12 → Booking.violates h f k = false) →
        Booking.validate h f = (none, some (Booking.buildPayload h f))) ∧
    ((∀ j, j < 4 → Booking.violates h f j = false) →
        h.toNumber f.tickets = JSNumber.integer 11 →
        Booking.validate h f = (some (js "Tickets must be 1–10"), none)) := by
  refine ⟨fun k hk hpass hfail => booking_validate_eq_of_first h f k hk hpass hfail, ?_,
    booking_validate_of_all_pass h f, ?_⟩
  · intro p hp
    rcases booking_validate_cases h f with ⟨k, _, _, hv⟩ | ⟨hall, _⟩
    · rw [hv] at hp
      cases hp
    · exact hall
  · intro hpass ht
    have h4 : Booking.violates h f 4 = true := by
      simp [Booking.violates, ht, ticketsBad]
    exact booking_validate_eq_of_first h f 4 (by omega) hpass h4

/-- C1 at a concrete state: the sample booking with 11 tickets. -/
theorem booking_validate_fail_fast_witness :
    Booking.validate refHost { sampleBooking with tickets := js "11", name := [], phone := js "x" }
      = (some (js "Tickets must be 1–10"), none) :=
  (booking_validate_fail_fast refHost
      { sampleBooking with tickets := js "11", name := [], phone := js "x" }).2.2.2
    (by decide) (by decide)

/-- C2: the contact validator checks the eight rules in the order first name,
last name, gender, mobile, date of birth (age 13 to 100), email (shape, and
length at most 150), location, message (5 to 2000 code units once trimmed). If
rule `k` is the first one the form state violates, `validate` returns rule
`k`s message and no payload, whatever the later fields hold; it returns a
payload only when no rule is violated, and then it does return one. -/
theorem contact_validate_fail_fast (h : Host) (f : ContactForm) :
    (∀ k, k < 8 → (∀ j, j < k → Contact.violates h f j = false) →
        Contact.violates h f k = true →
        Contact.validate h f = (some (Contact.message k), none)) ∧
    (∀ p, (Contact.validate h f).2 = some p → ∀ k, Contact.violates h f k = false) ∧
    ((∀ k, k < 8 → Contact.violates h f k = false) →
        Contact.validate h f = (none, some (Contact.buildPayload h f))) := by
  refine ⟨fun k hk hpass hfail => contact_validate_eq_of_first h f k hk hpass hfail, ?_,
    contact_validate_of_all_pass h f⟩
  intro p hp
  rcases contact_validate_cases h f with ⟨k, _, _, hv⟩ | ⟨hall, _⟩
  · rw [hv] at hp
    cases hp
  · exact hall

/-- C2 at a concrete state: the sample contact form with gender unchecked and
an unusable message. -/
theorem contact_validate_fail_fast_witness :
    Contact.validate refHost { sampleContact with gender := [], message := [] }
      = (some (js "Pick a gender."), none) :=
  (contact_validate_fail_fast refHost { sampleContact with gender := [], message := [] }).1 2
    (by decide) (by decide) (by decide)

/-! ## Submit handlers: no request after a failed validation -/

theorem booking_message_truthy (k : Nat) (hk : k < 12) :
    errTruthy (some (Booking.message k)) = true := by
  interval_cases k <;> decide

theorem contact_message_truthy (k : Nat) (hk : k < 8) :
    errTruthy (some (Contact.message k)) = true := by
  interval_cases k <;> decide

theorem booking_fetches_reportFailure (out : JSValue) (raw : JSString) :
    fetches (Booking.reportFailure out raw) = [] := by
  unfold Booking.reportFailure
  split <;> rfl

theorem booking_fetches_reportSuccess (payload : Option BookingPayload) :
    fetches (Booking.reportSuccess payload) = [] := by
  cases payload <;> rfl

theorem booking_fetches_afterResponse (h : Host) (payload : Option BookingPayload) (ok : Bool)
    (raw : JSString) : fetches (Booking.afterResponse h payload ok raw) = [] := by
  unfold Booking.afterResponse
  simp only
  split
  · exact booking_fetches_reportFailure _ _
  · split
    · rfl
    · split
      · exact booking_fetches_reportFailure _ _
      · exact booking_fetches_reportSuccess _

theorem contact_fetches_reportFailure (data : JSValue) :
    fetches (Contact.reportFailure data) = [] := by
  unfold Contact.reportFailure
  split <;> rfl

theorem contact_fetches_reportSuccess (hasBox : Bool) (payload : Option ContactPayload) :
    fetches (Contact.reportSuccess hasBox payload) = [] := by
  cases hasBox <;> cases payload <;> rfl

theorem contact_fetches_afterResponse (h : Host) (hasBox : Bool) (payload : Option ContactPayload)
    (ok : Bool) (raw : JSString) :
    fetches (Contact.afterResponse h hasBox payload ok raw) = [] := by
  unfold Contact.afterResponse
  split
  · rfl
  · split
    · exact contact_fetches_reportFailure _
    · split
      · rfl
      · split
        · exact contact_fetches_reportFailure _
        · exact contact_fetches_reportSuccess _ _

theorem booking_submit_of_invalid (h : Host) (f : BookingForm) (net : FetchResult) (k : Nat)
    (hk : k < 12) (hv : Booking.validate h f = (some (Booking.message k), none)) :
    Booking.submitHandler h f net =
      [.preventDefault, .errorShown (.string (Booking.message k))] := by
  have ht := booking_message_truthy k hk
  have ht2 : (Booking.message k).isEmpty = false := by simpa [errTruthy] using ht
  simp [Booking.submitHandler, hv, ht, errValue, showError, JSValue.or, JSValue.truthy, ht2]

theorem contact_submit_of_invalid (h : Host) (hasBox : Bool) (f : ContactForm) (net : FetchResult)
    (k : Nat) (hk : k < 8) (hv : Contact.validate h f = (some (Contact.message k), none)) :
    Contact.submitHandler h hasBox f net =
      [.preventDefault, .alert (.string (Contact.message k))] := by
  have ht := contact_message_truthy k hk
  simp [Contact.submitHandler, hv, ht, errValue]

theorem booking_submit_of_valid (h : Host) (f : BookingForm) (net : FetchResult)
    (hv : Booking.validate h f = (none, some (Booking.buildPayload h f))) :
    fetches (Booking.submitHandler h f net) =
      [(js "/api/book", some (Booking.buildPayload h f))] := by
  cases net with
  | rejected => simp [Booking.submitHandler, hv, errTruthy, fetches, Booking.onCatch, showError]
  | response ok raw =>
      simp [Booking.submitHandler, hv, errTruthy, fetches, booking_fetches_afterResponse]

theorem contact_submit_of_valid (h : Host) (hasBox : Bool) (f : ContactForm) (net : FetchResult)
    (hv : Contact.validate h f = (none, some (Contact.buildPayload h f))) :
    fetches (Contact.submitHandler h hasBox f net) =
      [(js "/api/contact", some (Contact.buildPayload h f))] := by
  cases net with
  | rejected => simp [Contact.submitHandler, hv, errTruthy, fetches, Contact.onCatch]
  | response ok raw =>
      simp [Contact.submitHandler, hv, errTruthy, fetches, contact_fetches_afterResponse]

/-- C3: in both submit handlers, whenever `validate` returns a message the
handler shows exactly that message (result box for the booking form, `alert`
for the contact form) and stops: the run contains no `fetch`. Any `fetch` of a
run carries the payload that `validate` returned. -/
theorem submit_no_fetch_when_invalid (h : Host) (hasBox : Bool) (bf : BookingForm)
    (cf : ContactForm) (net : FetchResult) :
    (∀ msg, (Booking.validate h bf).1 = some msg →
        Booking.submitHandler h bf net = [.preventDefault, .errorShown (.string msg)] ∧
        fetches (Booking.submitHandler h bf net) = []) ∧
    (∀ req, req ∈ fetches (Booking.submitHandler h bf net) →
        ∃ p, Booking.validate h bf = (none, some p) ∧ req = (js "/api/book", some p)) ∧
    (∀ msg, (Contact.validate h cf).1 = some msg →
        Contact.submitHandler h hasBox cf net = [.preventDefault, .alert (.string msg)] ∧
        fetches (Contact.submitHandler h hasBox cf net) = []) ∧
    (∀ req, req ∈ fetches (Contact.submitHandler h hasBox cf net) →
        ∃ p, Contact.validate h cf = (none, some p) ∧ req = (js "/api/contact", some p)) := by
  refine ⟨?_, ?_, ?_, ?_⟩
  · intro msg hmsg
    rcases booking_validate_cases h bf with ⟨k, hk, _, hv⟩ | ⟨_, hv⟩
    · rw [hv] at hmsg
      cases hmsg
      rw [booking_submit_of_invalid h bf net k hk hv]
      exact ⟨rfl, rfl⟩
    · rw [hv] at hmsg
      cases hmsg
  · intro req hreq
    rcases booking_validate_cases h bf with ⟨k, hk, _, hv⟩ | ⟨_, hv⟩
    · rw [booking_submit_of_invalid h bf net k hk hv] at hreq
      simp [fetches] at hreq
    · rw [booking_submit_of_valid h bf net hv] at hreq
      exact ⟨_, hv, by simpa using hreq⟩
  · intro msg hmsg
    rcases contact_validate_cases h cf with ⟨k, hk, _, hv⟩ | ⟨_, hv⟩
    · rw [hv] at hmsg
      cases hmsg
      rw [contact_submit_of_invalid h hasBox cf net k hk hv]
      exact ⟨rfl, rfl⟩
    · rw [hv] at hmsg
      cases hmsg
  · intro req hreq
    rcases contact_validate_cases h cf with ⟨k, hk, _, hv⟩ | ⟨_, hv⟩
    · rw [contact_submit_of_invalid h hasBox cf net k hk hv] at hreq
      simp [fetches] at hreq
    · rw [contact_submit_of_valid h hasBox cf net hv] at hreq
      exact ⟨_, hv, by simpa using hreq⟩

/-- C3 at a concrete state: eleven tickets, and a server that would answer. -/
theorem submit_no_fetch_when_invalid_witness :
    Booking.submitHandler refHost { sampleBooking with tickets := js "11" }
        (.response true (js "\x7b\"ok\":true\x7d")) =
      [.preventDefault, .errorShown (.string (js "Tickets must be 1–10"))] ∧
    fetches (Booking.submitHandler refHost { sampleBooking with tickets := js "11" }
        (.response true (js "\x7b\"ok\":true\x7d"))) = [] :=
  (submit_no_fetch_when_invalid refHost true { sampleBooking with tickets := js "11" }
      sampleContact (.response true (js "\x7b\"ok\":true\x7d"))).1
    (js "Tickets must be 1–10") (by decide)

/-! ## Sanitizing -/

theorem stripAngles_no_angle (s : JSString) : ∀ c ∈ stripAngles s, isAngle c = false := by
  intro c hc
  simpa using (List.mem_filter.mp hc).2

theorem sanitize_no_angle (s : JSString) : ∀ c ∈ sanitize s, isAngle c = false :=
  stripAngles_no_angle (trim s)

theorem trim_subset (s : JSString) : ∀ c ∈ trim s, c ∈ s := by
  intro c hc
  have h1 : c ∈ s.dropWhile isWhite := (List.rdropWhile_prefix isWhite _).subset hc
  exact (List.dropWhile_suffix isWhite).subset h1

/-- Sanitizing a sanitized string only trims it again. -/
theorem sanitize_sanitize (x : JSString) : sanitize (sanitize x) = trim (sanitize x) := by
  unfold sanitize stripAngles
  apply List.filter_eq_self.mpr
  intro c hc
  have hc2 := trim_subset _ c hc
  simpa using (List.mem_filter.mp hc2).2

/-- C4 fails on the code: on the input `< a` the trim comes before the removal
of `<`, so `sanitize` returns ` a` with a leading blank, and a second pass
returns `a`. -/
theorem sanitize_not_idempotent :
    sanitize (js "< a") = js " a" ∧ sanitize (sanitize (js "< a")) = js "a" ∧
      sanitize (sanitize (js "< a")) ≠ sanitize (js "< a") := by
  decide

/-- C5 fails on the code: a booking whose name is typed `< Bob` and a contact
message typed `< hello` pass every rule, and the payload fields are ` Bob` and
` hello`, each with a leading blank. -/
theorem payload_field_untrimmed :
    (Booking.validate refHost { sampleBooking with name := js "< Bob" }).2.map (fun p => p.name)
        = some (js " Bob") ∧
      ¬ Trimmed (js " Bob") ∧
    (Contact.validate refHost { sampleContact with message := js "< hello" }).2.map
        (fun p => p.message) = some (js " hello") ∧
      ¬ Trimmed (js " hello") := by
  decide

/-- C6: when `validate` succeeds, no text field of the payload contains `<`
(code unit 60) or `>` (code unit 62), for the booking form and for the contact
form. Every text field is sanitized; the email is then lower-cased by the
engine, whose lower-case mapping yields neither character (`Host.lower_angle`). -/
theorem payload_no_angle (h : Host) (bf : BookingForm) (cf : ContactForm) :
    (∀ p, (Booking.validate h bf).2 = some p →
        ∀ s ∈ p.textFields, ∀ c ∈ s, c ≠ 60 ∧ c ≠ 62) ∧
    (∀ p, (Contact.validate h cf).2 = some p →
        ∀ s ∈ p.textFields, ∀ c ∈ s, c ≠ 60 ∧ c ≠ 62) := by
  have key : ∀ s : JSString, (∀ c ∈ s, isAngle c = false) → ∀ c ∈ s, c ≠ 60 ∧ c ≠ 62 := by
    intro s hs c hc
    have := hs c hc
    simpa [isAngle] using this
  constructor
  · intro p hp s hs
    apply key
    rcases booking_validate_cases h bf with ⟨k, _, _, hv⟩ | ⟨_, hv⟩
    · rw [hv] at hp
      cases hp
    · rw [hv] at hp
      cases hp
      simp only [BookingPayload.textFields, Booking.buildPayload, List.mem_cons,
        List.mem_singleton, List.not_mem_nil, or_false] at hs
      rcases hs with rfl | rfl | rfl | rfl | rfl | rfl | rfl | rfl | rfl | rfl
      all_goals first
        | exact sanitize_no_angle _
        | exact h.lower_angle _ (sanitize_no_angle _)
  · intro p hp s hs
    apply key
    rcases contact_validate_cases h cf with ⟨k, _, _, hv⟩ | ⟨_, hv⟩
    · rw [hv] at hp
      cases hp
    · rw [hv] at hp
      cases hp
      simp only [ContactPayload.textFields, Contact.buildPayload, List.mem_cons,
        List.mem_singleton, List.not_mem_nil, or_false] at hs
      rcases hs with rfl | rfl | rfl | rfl | rfl
      all_goals first
        | exact sanitize_no_angle _
        | exact h.lower_angle _ (sanitize_no_angle _)

/-- C6 at a concrete state: a booking whose name is typed with markup. -/
theorem payload_no_angle_witness :
    ∀ s ∈ (Booking.buildPayload refHost
        { sampleBooking with name := js "<b>Sara</b>" }).textFields,
      ∀ c ∈ s, c ≠ 60 ∧ c ≠ 62 :=
  (payload_no_angle refHost { sampleBooking with name := js "<b>Sara</b>" } sampleContact).1
    (Booking.buildPayload refHost { sampleBooking with name := js "<b>Sara</b>" }) (by decide)

/-! ## Age arithmetic -/

theorem ageFromDob_of_parse (h : Host) (s : JSString) (d : JSDate)
    (hd : h.parseDate s = some d) :
    ageFromDob h s =
      if (h.today.month : Int) - (d.month : Int) < 0 ∨
          ((h.today.month : Int) - (d.month : Int) = 0 ∧ h.today.date < d.date)
      then some (h.today.year - d.year - 1) else some (h.today.year - d.year) := by
  simp [ageFromDob, hd]

theorem ageFromDob_thirteen (h : Host) (s : JSString)
    (hd : h.parseDate s = some (yearsBefore 13 h.today)) : ageFromDob h s = some 13 := by
  rw [ageFromDob_of_parse h s _ hd]
  simp [yearsBefore]

theorem ageFromDob_twelve (h : Host) (s : JSString)
    (hd : h.parseDate s = some (nextDay (yearsBefore 13 h.today))) :
    ageFromDob h s = some 12 := by
  rw [ageFromDob_of_parse h s _ hd]
  unfold nextDay
  simp only [yearsBefore]
  split_ifs <;> simp at * <;> omega

/-- The arithmetic of the age boundary, on what the engine reads. Let `D` be
the day with todays month and day, 13 years back. For a
birth date that the engine reads as `D`, `ageFromDob` returns 13 and the
birth-date rule of the contact validator passes (so a form whose other rules
pass is accepted); for a birth date read as the day after `D`, `ageFromDob`
returns 12 and a form that passes the first four rules is rejected with the
birth-date message. Dates are what the local getters of the parsed `Date`
return. -/
theorem ageFromDob_boundary (h : Host) (f : ContactForm) :
    (h.parseDate f.dob = some (yearsBefore 13 h.today) →
        ageFromDob h f.dob = some 13 ∧ Contact.violates h f 4 = false ∧
        ((∀ k, k < 8 → k ≠ 4 → Contact.violates h f k = false) →
          Contact.validate h f = (none, some (Contact.buildPayload h f)))) ∧
    (h.parseDate f.dob = some (nextDay (yearsBefore 13 h.today)) →
        ageFromDob h f.dob = some 12 ∧ Contact.violates h f 4 = true ∧
        ((∀ j, j < 4 → Contact.violates h f j = false) →
          Contact.validate h f =
            (some (js "Enter a valid birth date (age 13–100)."), none))) := by
  constructor
  · intro hd
    have h13 := ageFromDob_thirteen h f.dob hd
    have h4 : Contact.violates h f 4 = false := by
      simp [Contact.violates, h13, ageBad]
    refine ⟨h13, h4, fun hrest => contact_validate_of_all_pass h f ?_⟩
    intro k hk
    by_cases hk4 : k = 4
    · rw [hk4]
      exact h4
    · exact hrest k hk hk4
  · intro hd
    have h12 := ageFromDob_twelve h f.dob hd
    have h4 : Contact.violates h f 4 = true := by
      simp [Contact.violates, h12, ageBad]
    exact ⟨h12, h4, fun hpass => contact_validate_eq_of_first h f 4 (by omega) hpass h4⟩

/-- East of Greenwich, on 6 November 2026, a birth date of 6 November 2013
is accepted and one of 7 November 2013 is rejected. -/
theorem ageFromDob_boundary_witness :
    (ageFromDob refHost (js "2013-11-06") = some 13 ∧
      Contact.validate refHost { sampleContact with dob := js "2013-11-06" } =
        (none, some (Contact.buildPayload refHost
          { sampleContact with dob := js "2013-11-06" }))) ∧
    (ageFromDob refHost (js "2013-11-07") = some 12 ∧
      Contact.validate refHost { sampleContact with dob := js "2013-11-07" } =
        (some (js "Enter a valid birth date (age 13–100)."), none)) :=
  ⟨⟨((ageFromDob_boundary refHost { sampleContact with dob := js "2013-11-06" }).1
        (by decide)).1,
    ((ageFromDob_boundary refHost { sampleContact with dob := js "2013-11-06" }).1
        (by decide)).2.2 (by decide)⟩,
   ⟨((ageFromDob_boundary refHost { sampleContact with dob := js "2013-11-07" }).2
        (by decide)).1,
    ((ageFromDob_boundary refHost { sampleContact with dob := js "2013-11-07" }).2
        (by decide)).2.2 (by decide)⟩⟩

/-- C8: for a birth date that the engine reads as year `by`, month `bm`, day
`bd`, and todays `ty`, `tm`, `td`, `ageFromDob` returns `ty - by` when
`(tm, td)` is on or after `(bm, bd)` in calendar order and `ty - by - 1` when
it precedes it; it returns `null` exactly when the string is not parsed. -/
theorem ageFromDob_calendar (h : Host) (s : JSString) :
    (∀ d, h.parseDate s = some d →
        (¬ monthDayPrecedes h.today.month h.today.date d.month d.date →
            ageFromDob h s = some (h.today.year - d.year)) ∧
        (monthDayPrecedes h.today.month h.today.date d.month d.date →
            ageFromDob h s = some (h.today.year - d.year - 1))) ∧
    (ageFromDob h s = none ↔ h.parseDate s = none) := by
  constructor
  · intro d hd
    rw [ageFromDob_of_parse h s d hd]
    unfold monthDayPrecedes
    constructor
    · intro hn
      rw [if_neg]
      rintro (h1 | ⟨h1, h2⟩)
      · exact hn (Or.inl (by omega))
      · exact hn (Or.inr ⟨by omega, h2⟩)
    · intro hp
      rw [if_pos]
      rcases hp with h1 | ⟨h1, h2⟩
      · exact Or.inl (by omega)
      · exact Or.inr ⟨by omega, h2⟩
  · cases hd : h.parseDate s with
    | none => simp [ageFromDob, hd]
    | some d =>
        rw [ageFromDob_of_parse h s d hd]
        split_ifs <;> simp

/-- C8 at concrete dates: on 6 November 2026, a birth date of 15 January 2000
gives 26 and one of 25 December 2000 gives 25. -/
theorem ageFromDob_calendar_witness :
    ageFromDob refHost (js "2000-01-15") = some 26 ∧
      ageFromDob refHost (js "2000-12-25") = some 25 :=
  ⟨((ageFromDob_calendar refHost (js "2000-01-15")).1 ⟨2000, 0, 15⟩ (by decide)).1 (by decide),
   ((ageFromDob_calendar refHost (js "2000-12-25")).1 ⟨2000, 11, 25⟩ (by decide)).2 (by decide)⟩

/-! ## The mobile pattern -/

theorem fiveAndEightDigitsAfter_iff (pre t : JSString) :
    fiveAndEightDigitsAfter pre t = true ↔
      ∃ ds, t = pre ++ 53 :: ds ∧ ds.length = 8 ∧ ∀ c ∈ ds, isDigit c = true := by
  unfold fiveAndEightDigitsAfter
  rw [Bool.and_eq_true, List.isPrefixOf_iff_prefix]
  constructor
  · rintro ⟨⟨r, rfl⟩, hr⟩
    rw [List.drop_left] at hr
    cases r with
    | nil => simp at hr
    | cons c ds =>
        simp only [Bool.and_eq_true, beq_iff_eq, List.all_eq_true] at hr
        obtain ⟨⟨rfl, h2⟩, h3⟩ := hr
        exact ⟨ds, rfl, h2, h3⟩
  · rintro ⟨ds, rfl, h2, h3⟩
    refine ⟨⟨_, rfl⟩, ?_⟩
    rw [List.drop_left]
    simp only [Bool.and_eq_true, beq_iff_eq, List.all_eq_true]
    exact ⟨⟨trivial, h2⟩, h3⟩

theorem single_beq_iff (c : Nat) (w : List Nat) :
    (∃ x, w = [x] ∧ (x == c) = true) ↔ w = [c] := by
  constructor
  · rintro ⟨x, rfl, hx⟩
    rw [beq_iff_eq] at hx
    rw [hx]
  · rintro rfl
    exact ⟨c, rfl, by simp⟩

theorem matches_mobile (t : JSString) :
    mobileRegex.Matches t ↔
      ∃ pre ds, (pre = [] ∨ pre = [43, 57, 54, 54] ∨ pre = [57, 54, 54] ∨ pre = [48]) ∧
        t = pre ++ 53 :: ds ∧ ds.length = 8 ∧ ∀ c ∈ ds, isDigit c = true := by
  unfold mobileRegex Regex.opt
  simp only [Regex.Matches, Regex.chr, single_beq_iff]
  constructor
  · rintro ⟨u, v, rfl, hu, v1, ds, rfl, rfl, h8, h8', hd⟩
    have h8'' := h8' 8 rfl
    refine ⟨u, ds, ?_, rfl, by omega, hd⟩
    rcases hu with (⟨a, b, rfl, ⟨_, ha, hplus⟩, b1, b2, rfl, rfl, b3, b4, rfl, rfl, rfl⟩ | rfl) | rfl
    · have ha1 := ha 1 rfl
      match a, ha1, hplus with
      | [], _, _ => right; right; left; rfl
      | [x], _, hx =>
          have : x = 43 := by simpa using hx x (by simp)
          subst this
          right; left; rfl
    · right; right; right; rfl
    · left; rfl
  · rintro ⟨pre, ds, hpre, rfl, h8, hd⟩
    refine ⟨pre, 53 :: ds, rfl, ?_, [53], ds, rfl, rfl, by omega, ?_, hd⟩
    · rcases hpre with rfl | rfl | rfl | rfl
      · right; rfl
      · left; left
        exact ⟨[43], [57, 54, 54], rfl, ⟨by simp, by simp, by simp⟩, [57], [54, 54], rfl, rfl,
          [54], [54], rfl, rfl, rfl⟩
      · left; left
        exact ⟨[], [57, 54, 54], rfl, ⟨by simp, by simp, by simp⟩, [57], [54, 54], rfl, rfl,
          [54], [54], rfl, rfl, rfl⟩
      · left; right; rfl
    · intro n hn
      cases hn
      omega

/-- C9 fails on the code: `966512345678`, with the country code but without
the plus sign, is accepted by `isMobileKSA` although its prefix is neither
`+966` nor `0`. -/
theorem isMobileKSA_accepts_bare_966 :
    isMobileKSA (js "966512345678") = true ∧
      claimedMobileShape (trim (js "966512345678")) = false := by
  decide

/-- C9 as amended: `isMobileKSA s` holds exactly when `s`, trimmed, is an
optional prefix `+966`, `966` or `0` followed by the digit 5 and exactly eight
decimal digits. -/
theorem isMobileKSA_iff_accepted (s : JSString) :
    isMobileKSA s = acceptedMobileShape (trim s) := by
  rw [Bool.eq_iff_iff]
  unfold isMobileKSA
  rw [Regex.test_iff, matches_mobile]
  have e1 : js "+966" = [43, 57, 54, 54] := by decide
  have e2 : js "966" = [57, 54, 54] := by decide
  have e3 : js "0" = [48] := by decide
  simp only [acceptedMobileShape, List.any_cons, List.any_nil, Bool.or_false, Bool.or_eq_true,
    fiveAndEightDigitsAfter_iff, e1, e2, e3]
  constructor
  · rintro ⟨pre, ds, hpre, ht, h8, hd⟩
    rcases hpre with rfl | rfl | rfl | rfl
    · exact Or.inl ⟨ds, ht, h8, hd⟩
    · exact Or.inr (Or.inl ⟨ds, ht, h8, hd⟩)
    · exact Or.inr (Or.inr (Or.inl ⟨ds, ht, h8, hd⟩))
    · exact Or.inr (Or.inr (Or.inr ⟨ds, ht, h8, hd⟩))
  · rintro (⟨ds, h⟩ | ⟨ds, h⟩ | ⟨ds, h⟩ | ⟨ds, h⟩)
    · exact ⟨_, ds, Or.inl rfl, h⟩
    · exact ⟨_, ds, Or.inr (Or.inl rfl), h⟩
    · exact ⟨_, ds, Or.inr (Or.inr (Or.inl rfl)), h⟩
    · exact ⟨_, ds, Or.inr (Or.inr (Or.inr rfl)), h⟩

/-! ## Error bodies of the booking endpoint -/

/-- For a response without a success status whose body is not JSON, or is JSON
other than `null`, the booking handler shows `out.msg || raw || "Booking failed"`. -/
theorem booking_afterResponse_not_ok (h : Host) (payload : Option BookingPayload)
    (raw : JSString) (m : JSValue)
    (hm : ((h.parseJSON raw).getD (.object [])).get (js "msg") = some m) :
    Booking.afterResponse h payload false raw =
      [showError ((m.or (.string raw)).or (.string (js "Booking failed")))] := by
  simp [Booking.afterResponse, Booking.reportFailure, hm]

/-- C10 fails on the code: for a response with a non-success status whose body
is the JSON text `null`, reading `out.msg` throws and the handler shows the
exception fallback `Server error. Try again.` instead of the body text. -/
theorem booking_null_body_shows_fallback :
    Booking.submitHandler refHost sampleBooking (.response false (js "null")) =
      [.preventDefault,
       .fetch (js "/api/book") (some (Booking.buildPayload refHost sampleBooking)),
       .errorShown (.string (js "Server error. Try again."))] := by
  have hv : Booking.validate refHost sampleBooking =
      (none, some (Booking.buildPayload refHost sampleBooking)) := by decide
  have hp : refHost.parseJSON (js "null") = some JSValue.null := rfl
  simp [Booking.submitHandler, hv, errTruthy, Booking.afterResponse, hp, Booking.reportFailure,
    JSValue.get, Booking.onCatch, showError, JSValue.or, JSValue.truthy]
  intro hne
  exact absurd hne (by decide)

/-! ## Classifying the response -/

/-- With a success status and a body whose `ok` is readable and not `false`,
the booking handler clears the box, mounts the receipt and resets the form. -/
theorem booking_afterResponse_success (h : Host) (p : BookingPayload) (raw : JSString)
    (v : JSValue) (hv : ((h.parseJSON raw).getD (.object [])).get (js "ok") = some v)
    (hf : v.isFalse = false) :
    Booking.afterResponse h (some p) true raw =
      [.boxCleared, .receiptInjected p, .formReset] := by
  simp [Booking.afterResponse, Booking.reportSuccess, hv, hf]

/-- C11 fails on the code: for a response with a success status whose body is
the JSON text `null` (a JSON value without an `ok` field), reading `out.ok`
throws and the handler shows `Server error. Try again.`; no receipt is mounted
and the form is not reset. -/
theorem booking_null_body_success_status :
    Booking.submitHandler refHost sampleBooking (.response true (js "null")) =
      [.preventDefault,
       .fetch (js "/api/book") (some (Booking.buildPayload refHost sampleBooking)),
       .errorShown (.string (js "Server error. Try again."))] := by
  have hv : Booking.validate refHost sampleBooking =
      (none, some (Booking.buildPayload refHost sampleBooking)) := by decide
  have hp : refHost.parseJSON (js "null") = some JSValue.null := rfl
  simp [Booking.submitHandler, hv, errTruthy, Booking.afterResponse, hp,
    JSValue.get, Booking.onCatch, showError, JSValue.or, JSValue.truthy]
  intro hne
  exact absurd hne (by decide)

/-- A body that is not JSON makes `res.json()` reject, whatever the status: the
contact handler goes to its `catch` branch. -/
theorem contact_afterResponse_not_json (h : Host) (hasBox : Bool)
    (payload : Option ContactPayload) (ok : Bool) (raw : JSString)
    (hp : h.parseJSON raw = none) :
    Contact.afterResponse h hasBox payload ok raw = Contact.onCatch := by
  simp [Contact.afterResponse, hp]

/-- C12 fails on the code: for a response with a non-success status whose body
is the text `Internal Server Error`, the contact handler alerts the generic
`Server error. Please try again.` and not the body text. -/
theorem contact_non_json_body_alert :
    Contact.submitHandler refHost true sampleContact
        (.response false (js "Internal Server Error")) =
      [.preventDefault,
       .fetch (js "/api/contact") (some (Contact.buildPayload refHost sampleContact)),
       .alert (.string (js "Server error. Please try again."))] := by
  have hv : Contact.validate refHost sampleContact =
      (none, some (Contact.buildPayload refHost sampleContact)) := by decide
  have hp : refHost.parseJSON (js "Internal Server Error") = none := rfl
  simp [Contact.submitHandler, hv, errTruthy,
    contact_afterResponse_not_json refHost true _ false _ hp, Contact.onCatch]

/-- C13: when the body parses as a JSON object whose `ok` is `false` and whose
`msg` is a non-empty string `m`, then whatever the status, the booking handler
shows exactly `m` in the result box and the contact handler alerts exactly
`m`; neither run renders a receipt or confirmation nor resets the form. -/
theorem failure_flag_message (h : Host) (hasBox : Bool) (bf : BookingForm) (cf : ContactForm)
    (ok : Bool) (raw : JSString) (props : List (JSString × JSValue)) (m : JSString)
    (hparse : h.parseJSON raw = some (.object props))
    (hok : lookupProp (js "ok") props = .bool false)
    (hmsg : lookupProp (js "msg") props = .string m) (hm : m ≠ []) :
    (∀ p, Booking.validate h bf = (none, some p) →
        Booking.submitHandler h bf (.response ok raw) =
          [.preventDefault, .fetch (js "/api/book") (some p), .errorShown (.string m)]) ∧
    (∀ p, Contact.validate h cf = (none, some p) →
        Contact.submitHandler h hasBox cf (.response ok raw) =
          [.preventDefault, .fetch (js "/api/contact") (some p), .alert (.string m)]) ∧
    rendered (Booking.submitHandler h bf (.response ok raw)) = [] ∧
    hasReset (Booking.submitHandler h bf (.response ok raw)) = false ∧
    rendered (Contact.submitHandler h hasBox cf (.response ok raw)) = [] ∧
    hasReset (Contact.submitHandler h hasBox cf (.response ok raw)) = false := by
  have hme : m.isEmpty = false := by
    cases m with
    | nil => exact absurd rfl hm
    | cons c w => rfl
  have hb : ∀ p, Booking.validate h bf = (none, some p) →
      Booking.submitHandler h bf (.response ok raw) =
        [.preventDefault, .fetch (js "/api/book") (some p), .errorShown (.string m)] := by
    intro p hv
    cases ok <;>
      simp [Booking.submitHandler, hv, errTruthy, Booking.afterResponse, hparse,
        Booking.reportFailure, JSValue.get, hok, hmsg, JSValue.isFalse, showError,
        JSValue.or, JSValue.truthy, hme]
  have hc : ∀ p, Contact.validate h cf = (none, some p) →
      Contact.submitHandler h hasBox cf (.response ok raw) =
        [.preventDefault, .fetch (js "/api/contact") (some p), .alert (.string m)] := by
    intro p hv
    cases ok <;>
      simp [Contact.submitHandler, hv, errTruthy, Contact.afterResponse, hparse,
        Contact.reportFailure, JSValue.get, hok, hmsg, JSValue.or, JSValue.truthy, hme]
  refine ⟨hb, hc, ?_, ?_, ?_, ?_⟩
  · rcases booking_validate_cases h bf with ⟨k, hk, _, hv⟩ | ⟨_, hv⟩
    · rw [booking_submit_of_invalid h bf _ k hk hv]
      rfl
    · rw [hb _ hv]
      rfl
  · rcases booking_validate_cases h bf with ⟨k, hk, _, hv⟩ | ⟨_, hv⟩
    · rw [booking_submit_of_invalid h bf _ k hk hv]
      rfl
    · rw [hb _ hv]
      rfl
  · rcases contact_validate_cases h cf with ⟨k, hk, _, hv⟩ | ⟨_, hv⟩
    · rw [contact_submit_of_invalid h hasBox cf _ k hk hv]
      rfl
    · rw [hc _ hv]
      rfl
  · rcases contact_validate_cases h cf with ⟨k, hk, _, hv⟩ | ⟨_, hv⟩
    · rw [contact_submit_of_invalid h hasBox cf _ k hk hv]
      rfl
    · rw [hc _ hv]
      rfl

/-- C13 at a concrete response: status 200 with the body
`ok: false, msg: "Seat taken"` shows exactly `Seat taken`. -/
theorem failure_flag_message_witness :
    Booking.submitHandler refHost sampleBooking
        (.response true (js "\x7b\"ok\":false,\"msg\":\"Seat taken\"\x7d")) =
      [.preventDefault,
       .fetch (js "/api/book") (some (Booking.buildPayload refHost sampleBooking)),
       .errorShown (.string (js "Seat taken"))] :=
  (failure_flag_message refHost true sampleBooking sampleContact true
      (js "\x7b\"ok\":false,\"msg\":\"Seat taken\"\x7d")
      [(js "ok", .bool false), (js "msg", .string (js "Seat taken"))] (js "Seat taken")
      rfl rfl rfl (by decide)).1
    (Booking.buildPayload refHost sampleBooking) (by decide)

/-! ## Reset only on success -/

theorem booking_submit_valid_eq (h : Host) (f : BookingForm) (net : FetchResult)
    (p : BookingPayload) (hv : Booking.validate h f = (none, some p)) :
    Booking.submitHandler h f net =
      .preventDefault :: .fetch (js "/api/book") (some p) ::
        (match net with
         | .rejected => Booking.onCatch
         | .response ok raw => Booking.afterResponse h (some p) ok raw) := by
  simp [Booking.submitHandler, hv, errTruthy]

theorem contact_submit_valid_eq (h : Host) (hasBox : Bool) (f : ContactForm)
    (net : FetchResult) (p : ContactPayload) (hv : Contact.validate h f = (none, some p)) :
    Contact.submitHandler h hasBox f net =
      .preventDefault :: .fetch (js "/api/contact") (some p) ::
        (match net with
         | .rejected => Contact.onCatch
         | .response ok raw => Contact.afterResponse h hasBox (some p) ok raw) := by
  simp [Contact.submitHandler, hv, errTruthy]

theorem booking_reportFailure_shape (out : JSValue) (raw : JSString) :
    ∃ v, Booking.reportFailure out raw = [.errorShown v] := by
  unfold Booking.reportFailure
  split
  · exact ⟨_, rfl⟩
  · exact ⟨_, rfl⟩

theorem contact_reportFailure_shape (data : JSValue) :
    ∃ v, Contact.reportFailure data = [.alert v] := by
  unfold Contact.reportFailure
  split
  · exact ⟨_, rfl⟩
  · exact ⟨_, rfl⟩

/-- After a response, the booking handler either shows one error, or clears
the box, mounts the receipt and resets the form; the latter exactly when the
status is a success status and `out.ok` is readable and not `false`. -/
theorem booking_afterResponse_shape (h : Host) (p : BookingPayload) (ok : Bool)
    (raw : JSString) :
    ((∃ v, Booking.afterResponse h (some p) ok raw = [.errorShown v]) ∧
      ¬ (ok = true ∧ ∃ v, ((h.parseJSON raw).getD (.object [])).get (js "ok") = some v ∧
          v.isFalse = false)) ∨
    (Booking.afterResponse h (some p) ok raw = [.boxCleared, .receiptInjected p, .formReset] ∧
      (ok = true ∧ ∃ v, ((h.parseJSON raw).getD (.object [])).get (js "ok") = some v ∧
          v.isFalse = false)) := by
  cases ok with
  | false =>
      left
      refine ⟨?_, by simp⟩
      simp only [Booking.afterResponse, Bool.not_false, if_true]
      exact booking_reportFailure_shape _ _
  | true =>
      cases hok : ((h.parseJSON raw).getD (.object [])).get (js "ok") with
      | none =>
          left
          refine ⟨?_, by simp⟩
          simp only [Booking.afterResponse, hok, Bool.not_true, Bool.false_eq_true, if_false]
          exact ⟨_, rfl⟩
      | some v =>
          cases hf : v.isFalse with
          | true =>
              left
              refine ⟨?_, ?_⟩
              · simp only [Booking.afterResponse, hok, hf, Bool.not_true, Bool.false_eq_true,
                  if_false, if_true]
                exact booking_reportFailure_shape _ _
              · rintro ⟨_, w, hw, hw2⟩
                cases hw
                rw [hf] at hw2
                cases hw2
          | false =>
              right
              exact ⟨booking_afterResponse_success h p raw v hok hf, rfl, v, rfl, hf⟩

/-- The same dichotomy for the contact handler; on success it resets the form
and, when the page has the result element, fills it. -/
theorem contact_afterResponse_shape (h : Host) (hasBox : Bool) (p : ContactPayload) (ok : Bool)
    (raw : JSString) :
    ((∃ v, Contact.afterResponse h hasBox (some p) ok raw = [.alert v]) ∧
      ¬ (ok = true ∧ ∃ data v, h.parseJSON raw = some data ∧
          data.get (js "ok") = some v ∧ v.truthy = true)) ∨
    (Contact.afterResponse h hasBox (some p) ok raw =
        (if hasBox then [.confirmationShown p, .formReset] else [.formReset]) ∧
      (ok = true ∧ ∃ data v, h.parseJSON raw = some data ∧
          data.get (js "ok") = some v ∧ v.truthy = true)) := by
  cases hp : h.parseJSON raw with
  | none =>
      left
      refine ⟨?_, by simp⟩
      simp only [Contact.afterResponse, hp]
      exact ⟨_, rfl⟩
  | some data =>
      cases ok with
      | false =>
          left
          refine ⟨?_, by simp⟩
          simp only [Contact.afterResponse, hp, Bool.not_false, if_true]
          exact contact_reportFailure_shape _
      | true =>
          cases hok : data.get (js "ok") with
          | none =>
              left
              refine ⟨?_, by simp [hok]⟩
              simp only [Contact.afterResponse, hp, hok, Bool.not_true, Bool.false_eq_true,
                if_false]
              exact ⟨_, rfl⟩
          | some v =>
              cases ht : v.truthy with
              | false =>
                  left
                  refine ⟨?_, by simp [hok, ht]⟩
                  simp only [Contact.afterResponse, hp, hok, ht, Bool.not_true, Bool.not_false,
                    Bool.false_eq_true, if_false, if_true]
                  exact contact_reportFailure_shape _
              | true =>
                  right
                  refine ⟨?_, rfl, data, v, rfl, hok, ht⟩
                  cases hasBox <;>
                    simp [Contact.afterResponse, hp, hok, ht, Contact.reportSuccess]

/-- The three shapes of a booking run: stopped by validation, stopped by an
error after the request, or success. -/
theorem booking_run_cases (h : Host) (f : BookingForm) (net : FetchResult) :
    ((∃ v, Booking.submitHandler h f net = [.preventDefault, .errorShown v]) ∧
        ¬ Booking.onSuccessPath h f net) ∨
    ((∃ p v, Booking.submitHandler h f net =
        [.preventDefault, .fetch (js "/api/book") (some p), .errorShown v]) ∧
        ¬ Booking.onSuccessPath h f net) ∨
    ((∃ p, Booking.submitHandler h f net =
        [.preventDefault, .fetch (js "/api/book") (some p), .boxCleared,
          .receiptInjected p, .formReset]) ∧
        Booking.onSuccessPath h f net) := by
  rcases booking_validate_cases h f with ⟨k, hk, _, hv⟩ | ⟨_, hv⟩
  · refine Or.inl ⟨⟨_, booking_submit_of_invalid h f net k hk hv⟩, ?_⟩
    rintro ⟨p, _, _, hv2, _⟩
    rw [hv] at hv2
    cases hv2
  · right
    rw [booking_submit_valid_eq h f net _ hv]
    cases net with
    | rejected =>
        refine Or.inl ⟨⟨_, _, rfl⟩, ?_⟩
        rintro ⟨_, _, _, _, hn, _⟩
        cases hn
    | response ok raw =>
        rcases booking_afterResponse_shape h (Booking.buildPayload h f) ok raw with
          ⟨⟨v, hs⟩, hn⟩ | ⟨hs, hok, v, hg, hf⟩
        · refine Or.inl ⟨⟨_, v, by dsimp only; rw [hs]⟩, ?_⟩
          rintro ⟨_, raw2, v2, _, hr, hg, hf⟩
          cases hr
          exact hn ⟨rfl, v2, hg, hf⟩
        · subst hok
          exact Or.inr ⟨⟨_, by dsimp only; rw [hs]⟩, _, raw, v, hv, rfl, hg, hf⟩

/-- The three shapes of a contact run. -/
theorem contact_run_cases (h : Host) (hasBox : Bool) (f : ContactForm) (net : FetchResult) :
    ((∃ v, Contact.submitHandler h hasBox f net = [.preventDefault, .alert v]) ∧
        ¬ Contact.onSuccessPath h f net) ∨
    ((∃ p v, Contact.submitHandler h hasBox f net =
        [.preventDefault, .fetch (js "/api/contact") (some p), .alert v]) ∧
        ¬ Contact.onSuccessPath h f net) ∨
    ((∃ p, Contact.submitHandler h hasBox f net =
        .preventDefault :: .fetch (js "/api/contact") (some p) ::
          (if hasBox then [.confirmationShown p, .formReset] else [.formReset])) ∧
        Contact.onSuccessPath h f net) := by
  rcases contact_validate_cases h f with ⟨k, hk, _, hv⟩ | ⟨_, hv⟩
  · refine Or.inl ⟨⟨_, contact_submit_of_invalid h hasBox f net k hk hv⟩, ?_⟩
    rintro ⟨p, _, _, _, hv2, _⟩
    rw [hv] at hv2
    cases hv2
  · right
    rw [contact_submit_valid_eq h hasBox f net _ hv]
    cases net with
    | rejected =>
        refine Or.inl ⟨⟨_, _, rfl⟩, ?_⟩
        rintro ⟨_, _, _, _, _, hn, _⟩
        cases hn
    | response ok raw =>
        rcases contact_afterResponse_shape h hasBox (Contact.buildPayload h f) ok raw with
          ⟨⟨v, hs⟩, hn⟩ | ⟨hs, hok, data, v, hp, hg, ht⟩
        · refine Or.inl ⟨⟨_, v, by dsimp only; rw [hs]⟩, ?_⟩
          rintro ⟨_, raw2, data2, v2, _, hr, hp, hg, ht⟩
          cases hr
          exact hn ⟨rfl, data2, v2, hp, hg, ht⟩
        · subst hok
          exact Or.inr ⟨⟨_, by dsimp only; rw [hs]⟩, _, raw, data, v, hv, rfl, hp, hg, ht⟩

/-- C14: when `fetch` rejects, the booking handler shows `Server error. Try
again.` and the contact handler alerts `Server error. Please try again.`, and
neither resets the form. Over every outcome of a submit attempt, for both
forms, `form.reset()` runs exactly when the attempt ends on the success path,
which is exactly when the run surfaces no error message. -/
theorem reset_iff_success (h : Host) (hasBox : Bool) (bf : BookingForm) (cf : ContactForm)
    (net : FetchResult) :
    (∀ p, Booking.validate h bf = (none, some p) →
        Booking.submitHandler h bf .rejected =
          [.preventDefault, .fetch (js "/api/book") (some p),
            .errorShown (.string (js "Server error. Try again."))]) ∧
    (∀ p, Contact.validate h cf = (none, some p) →
        Contact.submitHandler h hasBox cf .rejected =
          [.preventDefault, .fetch (js "/api/contact") (some p),
            .alert (.string (js "Server error. Please try again."))]) ∧
    (hasReset (Booking.submitHandler h bf net) = true ↔ Booking.onSuccessPath h bf net) ∧
    (hasReset (Booking.submitHandler h bf net) = true ↔
        surfaced (Booking.submitHandler h bf net) = []) ∧
    (hasReset (Contact.submitHandler h hasBox cf net) = true ↔
        Contact.onSuccessPath h cf net) ∧
    (hasReset (Contact.submitHandler h hasBox cf net) = true ↔
        surfaced (Contact.submitHandler h hasBox cf net) = []) := by
  refine ⟨?_, ?_, ?_, ?_, ?_, ?_⟩
  · intro p hv
    rw [booking_submit_valid_eq h bf _ p hv]
    simp only [Booking.onCatch, showError, JSValue.or, JSValue.truthy]
    have hne : (js "Server error. Try again.").isEmpty = false := by decide
    simp [hne]
  · intro p hv
    rw [contact_submit_valid_eq h hasBox cf _ p hv]
    rfl
  · rcases booking_run_cases h bf net with ⟨⟨v, hs⟩, hn⟩ | ⟨⟨p, v, hs⟩, hn⟩ | ⟨⟨p, hs⟩, hy⟩
    · rw [hs]
      simp [hasReset, hn]
    · rw [hs]
      simp [hasReset, hn]
    · rw [hs]
      simp [hasReset, hy]
  · rcases booking_run_cases h bf net with ⟨⟨v, hs⟩, _⟩ | ⟨⟨p, v, hs⟩, _⟩ | ⟨⟨p, hs⟩, _⟩
    · rw [hs]
      simp [hasReset, surfaced]
    · rw [hs]
      simp [hasReset, surfaced]
    · rw [hs]
      simp [hasReset, surfaced]
  · rcases contact_run_cases h hasBox cf net with
      ⟨⟨v, hs⟩, hn⟩ | ⟨⟨p, v, hs⟩, hn⟩ | ⟨⟨p, hs⟩, hy⟩
    · rw [hs]
      simp [hasReset, hn]
    · rw [hs]
      simp [hasReset, hn]
    · rw [hs]
      cases hasBox <;> simp [hasReset, hy]
  · rcases contact_run_cases h hasBox cf net with
      ⟨⟨v, hs⟩, _⟩ | ⟨⟨p, v, hs⟩, _⟩ | ⟨⟨p, hs⟩, _⟩
    · rw [hs]
      simp [hasReset, surfaced]
    · rw [hs]
      simp [hasReset, surfaced]
    · rw [hs]
      cases hasBox <;> simp [hasReset, surfaced]

/-- C14 at a concrete attempt: a valid booking whose request is refused. -/
theorem reset_iff_success_witness :
    Booking.submitHandler refHost sampleBooking .rejected =
      [.preventDefault,
       .fetch (js "/api/book") (some (Booking.buildPayload refHost sampleBooking)),
       .errorShown (.string (js "Server error. Try again."))] ∧
    hasReset (Booking.submitHandler refHost sampleBooking .rejected) = false :=
  ⟨(reset_iff_success refHost true sampleBooking sampleContact .rejected).1
      (Booking.buildPayload refHost sampleBooking) (by decide),
   by
    rw [(reset_iff_success refHost true sampleBooking sampleContact .rejected).1
      (Booking.buildPayload refHost sampleBooking) (by decide)]
    rfl⟩

/-! ## The result box after an attempt -/

/-- After one attempt the box holds either what the HTML parser built from the
one message the run surfaced, or the one receipt of the payload just
submitted. -/
theorem afterAttempt_cases (box : List BoxNode) (a : Attempt) :
    (∃ v, afterAttempt box a = a.errorChildren v ∧
        surfaced (Booking.submitHandler a.host a.form a.net) = [v] ∧
        hasReset (Booking.submitHandler a.host a.form a.net) = false) ∨
    (∃ p, afterAttempt box a = [.receipt p (receiptTotal p)] ∧
        surfaced (Booking.submitHandler a.host a.form a.net) = [] ∧
        hasReset (Booking.submitHandler a.host a.form a.net) = true) := by
  unfold afterAttempt
  rcases booking_run_cases a.host a.form a.net with
    ⟨⟨v, hs⟩, _⟩ | ⟨⟨p, v, hs⟩, _⟩ | ⟨⟨p, hs⟩, _⟩
  · rw [hs]
    exact Or.inl ⟨v, rfl, rfl, rfl⟩
  · rw [hs]
    exact Or.inl ⟨v, rfl, rfl, rfl⟩
  · rw [hs]
    exact Or.inr ⟨p, rfl, rfl, rfl⟩

theorem afterAttempts_append (box : List BoxNode) (as : List Attempt) (a : Attempt) :
    afterAttempts box (as ++ [a]) = afterAttempt (afterAttempts box as) a := by
  simp [afterAttempts, List.foldl_append]

/-- A successful attempt leaves exactly the new receipt card, and a failed one
leaves no receipt of an earlier success, whatever the box held before: what a
failed attempt leaves is what the parser builds from the message alone. -/
theorem afterAttempts_last (box : List BoxNode) (as : List Attempt) (a : Attempt) :
    (∃ v, afterAttempts box (as ++ [a]) = a.errorChildren v ∧
        surfaced (Booking.submitHandler a.host a.form a.net) = [v]) ∨
    (∃ p, afterAttempts box (as ++ [a]) = [.receipt p (receiptTotal p)] ∧
        receiptCount (afterAttempts box (as ++ [a])) = 1) := by
  rw [afterAttempts_append]
  rcases afterAttempt_cases (afterAttempts box as) a with ⟨v, hb, hs, _⟩ | ⟨p, hb, _, _⟩
  · exact Or.inl ⟨v, hb, hs⟩
  · exact Or.inr ⟨p, hb, by rw [hb]; rfl⟩

/-- C15 fails on the code: `showError` assigns the message to `innerHTML`
unescaped. After a successful booking, a response with status 500 whose body
is two `div` elements of class `receipt-card` leaves four children in the
result box: the emptied red paragraph, the two cards and an empty paragraph.
The box then holds two receipt cards and more than the single error message. -/
theorem box_two_cards_after_error :
    afterAttempts []
        [{ host := refHost, errorChildren := refErrorChildren, form := sampleBooking,
           net := .response true (js "\x7b\"ok\":true\x7d") },
         { host := refHost, errorChildren := refErrorChildren, form := sampleBooking,
           net := .response false twoCardsBody }] =
      [.paragraph (.string []), .parsed 0 true, .parsed 0 true, .parsed 0 false] ∧
    receiptCount (afterAttempts []
        [{ host := refHost, errorChildren := refErrorChildren, form := sampleBooking,
           net := .response true (js "\x7b\"ok\":true\x7d") },
         { host := refHost, errorChildren := refErrorChildren, form := sampleBooking,
           net := .response false twoCardsBody }]) = 2 ∧
    childCount (afterAttempts []
        [{ host := refHost, errorChildren := refErrorChildren, form := sampleBooking,
           net := .response true (js "\x7b\"ok\":true\x7d") },
         { host := refHost, errorChildren := refErrorChildren, form := sampleBooking,
           net := .response false twoCardsBody }]) = 4 ∧
    surfaced (Booking.submitHandler refHost sampleBooking (.response false twoCardsBody)) =
      [.string twoCardsBody] := by
  refine ⟨rfl, by decide, by decide, rfl⟩

/-! ## The total of the receipt -/

theorem booking_valid_tickets (h : Host) (f : BookingForm) (p : BookingPayload)
    (hp : (Booking.validate h f).2 = some p) :
    ∃ z : Int, p.tickets = .integer z ∧ 1 ≤ z ∧ z ≤ 10 := by
  rcases booking_validate_cases h f with ⟨k, _, _, hv⟩ | ⟨hall, hv⟩
  · rw [hv] at hp
    cases hp
  · rw [hv] at hp
    cases hp
    have h4 := hall 4
    simp only [Booking.violates] at h4
    simp only [Booking.buildPayload]
    cases ht : h.toNumber f.tickets with
    | nan => simp [ht, ticketsBad] at h4
    | nonInteger => simp [ht, ticketsBad] at h4
    | integer z =>
        simp only [ht, ticketsBad, Bool.or_eq_false_iff, decide_eq_false_iff_not] at h4
        exact ⟨z, rfl, by omega, by omega⟩

/-- C17: the receipt card that `injectReceipt` inserts shows the total
`payload.tickets * 45`: for every payload with an integral ticket count whose
product is exactly representable, the total is that product. Hence for every
payload returned by the booking validator the total is an integer from 45 to
450. -/
theorem receipt_total_is_tickets_times_45 (h : Host) (f : BookingForm) :
    (∀ (box : List BoxNode) (p : BookingPayload),
        ∃ rest, injectReceipt box p = rest ++ [.receipt p (receiptTotal p)]) ∧
    (∀ (p : BookingPayload) (z : Int), p.tickets = .integer z → (z * 45).natAbs ≤ 2 ^ 53 →
        receiptTotal p = some (.integer (z * 45))) ∧
    (∀ p, (Booking.validate h f).2 = some p →
        ∃ z : Int, p.tickets = .integer z ∧ receiptTotal p = some (.integer (z * 45)) ∧
          45 ≤ z * 45 ∧ z * 45 ≤ 450) := by
  have key : ∀ (p : BookingPayload) (z : Int), p.tickets = .integer z →
      (z * 45).natAbs ≤ 2 ^ 53 → receiptTotal p = some (.integer (z * 45)) := by
    intro p z hz hb
    have hb2 : (z * 45).natAbs ≤ 9007199254740992 := by
      have e : (2 : Nat) ^ 53 = 9007199254740992 := by norm_num
      rw [← e]
      exact hb
    simp [receiptTotal, hz, ticketPrice, hb2]
  refine ⟨fun box p => ⟨_, rfl⟩, key, ?_⟩
  intro p hp
  obtain ⟨z, hz, h1, h10⟩ := booking_valid_tickets h f p hp
  refine ⟨z, hz, key p z hz ?_, by omega, by omega⟩
  have : (z * 45).natAbs ≤ 450 := by omega
  exact le_trans this (by norm_num)

/-- C17 at a concrete state: two tickets cost 90. -/
theorem receipt_total_is_tickets_times_45_witness :
    receiptTotal (Booking.buildPayload refHost sampleBooking) = some (.integer 90) :=
  (receipt_total_is_tickets_times_45 refHost sampleBooking).2.1
    (Booking.buildPayload refHost sampleBooking) 2 (by decide) (by decide)

/-! ## The two variants of a validation result -/

/-- C18: for every form state, `validate` of either form returns exactly one
of two variants: a non-empty message and no payload, or a null message and a
payload. The test `if (err)` of the handler holds exactly on the first. -/
theorem validate_one_variant (h : Host) (bf : BookingForm) (cf : ContactForm) :
    ((∃ msg, msg ≠ [] ∧ Booking.validate h bf = (some msg, none)) ∨
        (∃ p, Booking.validate h bf = (none, some p))) ∧
    (errTruthy (Booking.validate h bf).1 = true ↔
        ∃ msg, Booking.validate h bf = (some msg, none)) ∧
    ((∃ msg, msg ≠ [] ∧ Contact.validate h cf = (some msg, none)) ∨
        (∃ p, Contact.validate h cf = (none, some p))) ∧
    (errTruthy (Contact.validate h cf).1 = true ↔
        ∃ msg, Contact.validate h cf = (some msg, none)) := by
  have hne : ∀ m : JSString, errTruthy (some m) = true → m ≠ [] := by
    intro m hm hnil
    rw [hnil] at hm
    cases hm
  refine ⟨?_, ?_, ?_, ?_⟩
  · rcases booking_validate_cases h bf with ⟨k, hk, _, hv⟩ | ⟨_, hv⟩
    · exact Or.inl ⟨_, hne _ (booking_message_truthy k hk), hv⟩
    · exact Or.inr ⟨_, hv⟩
  · rcases booking_validate_cases h bf with ⟨k, hk, _, hv⟩ | ⟨_, hv⟩
    · rw [hv]
      exact ⟨fun _ => ⟨_, rfl⟩, fun _ => booking_message_truthy k hk⟩
    · rw [hv]
      constructor
      · intro ht
        cases ht
      · rintro ⟨msg, hm⟩
        cases hm
  · rcases contact_validate_cases h cf with ⟨k, hk, _, hv⟩ | ⟨_, hv⟩
    · exact Or.inl ⟨_, hne _ (contact_message_truthy k hk), hv⟩
    · exact Or.inr ⟨_, hv⟩
  · rcases contact_validate_cases h cf with ⟨k, hk, _, hv⟩ | ⟨_, hv⟩
    · rw [hv]
      exact ⟨fun _ => ⟨_, rfl⟩, fun _ => contact_message_truthy k hk⟩
    · rw [hv]
      constructor
      · intro ht
        cases ht
      · rintro ⟨msg, hm⟩
        cases hm

/-! ## Day granularity of `notPast` -/

theorem daysBeforeYear_succ (y : Int) :
    daysBeforeYear (y + 1) = daysBeforeYear y + (if isLeap y = true then 366 else 365) := by
  unfold daysBeforeYear isLeap
  split_ifs with hl <;> simp at hl <;> omega

theorem daysBeforeYear_mono (y1 y2 : Int) (hy : y1 ≤ y2) :
    daysBeforeYear y1 ≤ daysBeforeYear y2 := by
  unfold daysBeforeYear
  omega

theorem daysBeforeMonth_succ (y : Int) (m : Nat) :
    daysBeforeMonth y (m + 1) = daysBeforeMonth y m + daysInMonth y m := by
  simp [daysBeforeMonth, List.range_succ]

theorem daysBeforeMonth_mono (y : Int) (m1 m2 : Nat) (hm : m1 ≤ m2) :
    daysBeforeMonth y m1 ≤ daysBeforeMonth y m2 := by
  induction m2 with
  | zero =>
      have : m1 = 0 := by omega
      rw [this]
  | succ n ih =>
      by_cases hc : m1 = n + 1
      · rw [hc]
      · have := ih (by omega)
        rw [daysBeforeMonth_succ]
        omega

theorem daysBeforeMonth_twelve (y : Int) :
    daysBeforeMonth y 12 = if isLeap y = true then 366 else 365 := by
  by_cases hl : isLeap y = true <;>
    simp [daysBeforeMonth, List.range_succ, daysInMonth, hl]

/-- Calendar order of valid dates agrees with the order of their day numbers. -/
theorem dayNumber_lt_of_earlier (a b : JSDate) (ha : a.Valid) (hb : b.Valid)
    (hlt : a.year < b.year ∨ (a.year = b.year ∧
      (a.month < b.month ∨ (a.month = b.month ∧ a.date < b.date)))) :
    dayNumber a < dayNumber b := by
  obtain ⟨ha1, ha2, ha3⟩ := ha
  obtain ⟨hb1, hb2, hb3⟩ := hb
  unfold dayNumber
  have hamon := daysBeforeMonth_succ a.year a.month
  have ha12 := daysBeforeMonth_mono a.year (a.month + 1) 12 (by omega)
  have hayear := daysBeforeMonth_twelve a.year
  rcases hlt with hy | ⟨hy, hm | ⟨hm, hd⟩⟩
  · have h1 := daysBeforeYear_succ a.year
    have h2 := daysBeforeYear_mono (a.year + 1) b.year (by omega)
    split_ifs at h1 hayear <;> omega
  · have h3 := daysBeforeMonth_mono a.year (a.month + 1) b.month (by omega)
    rw [← hy]
    omega
  · rw [← hy, ← hm]
    omega

theorem dayLE_iff_dayNumber (a b : JSDate) (ha : a.Valid) (hb : b.Valid) :
    a.dayLE b = true ↔ dayNumber a ≤ dayNumber b := by
  constructor
  · intro hle
    simp only [JSDate.dayLE, Bool.or_eq_true, Bool.and_eq_true, decide_eq_true_eq] at hle
    by_cases heq : a.year = b.year ∧ a.month = b.month ∧ a.date = b.date
    · obtain ⟨h1, h2, h3⟩ := heq
      unfold dayNumber
      rw [h1, h2, h3]
    · have := dayNumber_lt_of_earlier a b ha hb (by omega)
      omega
  · intro hle
    by_contra hn
    simp only [JSDate.dayLE, Bool.or_eq_true, Bool.and_eq_true, decide_eq_true_eq] at hn
    have := dayNumber_lt_of_earlier b a hb ha (by omega)
    omega

/-- On what the engine reads, `notPast` compares local calendar days. For a string the engine reads
as calendar day `d`, and a current instant whose local calendar day is `t`, it
returns `true` exactly when the day number of `d` is at least that of `t`: the
same day or a later one. Today is accepted, the day before today is not. For an
unparseable string it returns `false`. -/
theorem notPast_day_granularity (h : Host) (s : JSString) :
    (∀ d, h.parseDate s = some d → h.today.Valid → d.Valid →
        (notPast h s = true ↔ dayNumber h.today ≤ dayNumber d)) ∧
    (h.parseDate s = some h.today → notPast h s = true) ∧
    (∀ d, h.parseDate s = some d → h.today.Valid → d.Valid → nextDay d = h.today →
        notPast h s = false) ∧
    (h.parseDate s = none → notPast h s = false) := by
  refine ⟨?_, ?_, ?_, ?_⟩
  · intro d hd ht hv
    simp only [notPast, hd]
    exact dayLE_iff_dayNumber h.today d ht hv
  · intro hd
    simp [notPast, hd, JSDate.dayLE]
  · intro d hd ht hv hnext
    have hlt : dayNumber d < dayNumber h.today := by
      apply dayNumber_lt_of_earlier d h.today hv ht
      rw [← hnext]
      unfold nextDay
      split_ifs <;> simp
    have hiff := dayLE_iff_dayNumber h.today d ht hv
    simp only [notPast, hd]
    cases hc : h.today.dayLE d with
    | false => rfl
    | true =>
        have := hiff.mp hc
        omega
  · intro hd
    simp [notPast, hd]

/-- East of Greenwich, on 6 November 2026, the date 2026-11-06 is accepted
and 2026-11-05 is not. -/
theorem notPast_day_granularity_witness :
    notPast refHost (js "2026-11-06") = true ∧ notPast refHost (js "2026-11-05") = false :=
  ⟨((notPast_day_granularity refHost (js "2026-11-06")).1 ⟨2026, 10, 6⟩ (by decide)
      (by decide) (by decide)).mpr (by decide),
   (notPast_day_granularity refHost (js "2026-11-05")).2.2.1 ⟨2026, 10, 5⟩ (by decide)
      (by decide) (by decide) (by decide)⟩

/-! ## The time pattern -/

theorem matches_time (t : JSString) :
    timeRegex.Matches t ↔
      ∃ h1 h2 m1 m2, t = [h1, h2, 58, m1, m2] ∧
        (((h1 = 48 ∨ h1 = 49) ∧ isDigit h2 = true) ∨ (h1 = 50 ∧ 48 ≤ h2 ∧ h2 ≤ 51)) ∧
        (48 ≤ m1 ∧ m1 ≤ 53) ∧ isDigit m2 = true := by
  unfold timeRegex
  simp only [Regex.Matches, Regex.chr, single_beq_iff]
  simp only [Bool.or_eq_true, beq_iff_eq, Bool.and_eq_true, decide_eq_true_eq]
  constructor
  · rintro ⟨u, v, rfl, hu, c, w, rfl, rfl, a, b, rfl, ⟨m1, rfl, hm1⟩, ⟨m2, rfl, hm2⟩⟩
    rcases hu with ⟨x, y, rfl, ⟨h1, rfl, hh1⟩, ⟨h2, rfl, hh2⟩⟩ |
      ⟨x, y, rfl, rfl, ⟨h2, rfl, hh2⟩⟩
    · exact ⟨h1, h2, m1, m2, rfl, Or.inl ⟨hh1, hh2⟩, hm1, hm2⟩
    · exact ⟨50, h2, m1, m2, rfl, Or.inr ⟨rfl, hh2⟩, hm1, hm2⟩
  · rintro ⟨h1, h2, m1, m2, rfl, hh, hm1, hm2⟩
    refine ⟨[h1, h2], [58, m1, m2], rfl, ?_, [58], [m1, m2], rfl, rfl, [m1], [m2], rfl,
      ⟨m1, rfl, hm1⟩, ⟨m2, rfl, hm2⟩⟩
    rcases hh with ⟨hh1, hh2⟩ | ⟨rfl, hh2⟩
    · exact Or.inl ⟨[h1], [h2], rfl, ⟨h1, rfl, hh1⟩, ⟨h2, rfl, hh2⟩⟩
    · exact Or.inr ⟨[50], [h2], rfl, rfl, ⟨h2, rfl, hh2⟩⟩

/-- C19: `isTime v` holds exactly when `v`, trimmed, is a 24-hour time
`HH:MM`: five code units, two digits with `HH` from 00 to 23, a colon, two
digits with `MM` from 00 to 59. -/
theorem isTime_iff_claimed (v : JSString) : isTime v = claimedTimeShape (trim v) := by
  rw [Bool.eq_iff_iff]
  unfold isTime
  rw [Regex.test_iff, matches_time]
  generalize trim v = t
  constructor
  · rintro ⟨h1, h2, m1, m2, rfl, hh, hm1, hm2⟩
    simp only [isDigit, Bool.and_eq_true, decide_eq_true_eq] at hh hm2
    simp only [claimedTimeShape, isDigit, digitsValue, List.foldl_cons, List.foldl_nil,
      Bool.and_eq_true, decide_eq_true_eq, beq_iff_eq]
    refine ⟨⟨⟨⟨⟨⟨?_, ?_⟩, trivial⟩, ?_⟩, ?_⟩, ?_⟩, ?_⟩ <;> omega
  · intro hc
    rcases t with _ | ⟨h1, _ | ⟨h2, _ | ⟨c, _ | ⟨m1, _ | ⟨m2, _ | ⟨x, rest⟩⟩⟩⟩⟩⟩
    all_goals try (simp [claimedTimeShape] at hc; done)
    simp only [claimedTimeShape, isDigit, digitsValue, List.foldl_cons, List.foldl_nil,
      Bool.and_eq_true, decide_eq_true_eq, beq_iff_eq] at hc
    obtain ⟨⟨⟨⟨⟨⟨hh1, hh2⟩, hcol⟩, hm1⟩, hm2⟩, hH⟩, hM⟩ := hc
    subst hcol
    refine ⟨h1, h2, m1, m2, rfl, ?_, by omega, by simp [isDigit]; omega⟩
    simp only [isDigit, Bool.and_eq_true, decide_eq_true_eq]
    omega

/-! ## The contact email after sanitizing -/

/-- C20 fails on the code: the contact email `<@b.co` passes the email rule,
which is checked on the raw input, and the payload then carries `@b.co`, whose
local part is empty: `isEmail` rejects it. -/
theorem contact_payload_email_rejected :
    Contact.validate refHost { sampleContact with email := js "<@b.co" } =
        (none, some (Contact.buildPayload refHost { sampleContact with email := js "<@b.co" })) ∧
      (Contact.buildPayload refHost { sampleContact with email := js "<@b.co" }).email =
        js "@b.co" ∧
      isEmail (js "@b.co") = false := by
  decide

/-! ## Date-only strings west of Greenwich -/

/-- C7 fails on the code: `new Date(dobStr)` reads a date-only string as
midnight UTC and `ageFromDob` then uses the local getters. West of Greenwich,
on 6 November 2026, the day after the boundary day `D` = 6 November 2013 is
typed `2013-11-07`, is read as 6 November 2013, and `ageFromDob` returns 13
where the age is 12; the validator accepts the form. -/
theorem ageFromDob_day_after_west :
    nextDay (yearsBefore 13 westHost.today) = { year := 2013, month := 10, date := 7 } ∧
    westHost.parseDate (js "2013-11-07") = some { year := 2013, month := 10, date := 6 } ∧
    ageFromDob westHost (js "2013-11-07") = some 13 ∧
    Contact.validate westHost { sampleContact with dob := js "2013-11-07" } =
      (none, some (Contact.buildPayload westHost
        { sampleContact with dob := js "2013-11-07" })) := by
  decide

/-- C16 fails on the code: `new Date(dstr)` reads a date-only string as
midnight UTC and `setHours(0,0,0,0)` works in local time. West of Greenwich,
at noon on 6 November 2026, todays date `2026-11-06` is read as 5 November,
`notPast` returns `false`, and the booking validator rejects today with the
date message. -/
theorem notPast_today_west :
    westHost.today = { year := 2026, month := 10, date := 6 } ∧
    westHost.parseDate (js "2026-11-06") = some { year := 2026, month := 10, date := 5 } ∧
    notPast westHost (js "2026-11-06") = false ∧
    Booking.validate westHost { sampleBooking with date := js "2026-11-06" } =
      (some (js "Choose a valid date (today or future)"), none) := by
  decide

end WebForms
